import Mathlib

/-! # STMPE811 touch driver (`drivers/ginput/touch/STMPE811/ginput_lld_mouse.c`)

A shallow embedding of the low level GINPUT driver for the STMPE811 touch
controller, and theorems about it.

* The file-scope statics `x`, `y`, `z`, `touched` become the fields of `Driver`.
* The functions the driver calls but does not define (`read_reg`, `write_reg`,
  `getpin_irq`, `init_board`, `chThdSleepMilliseconds`, `ginputMouseWakeup`,
  `gdispGetWidth`, `gdispGetHeight`) are the fields of `Env`, over an arbitrary
  type `σ` of hardware states.  Every call the driver makes is also appended to
  `Driver.trace`, in program order, together with the value it returned.
* The preprocessor switches are the fields of `Config`.
* The `do … while` loop over the FIFO takes a fuel argument; a division by zero
  (undefined behaviour in C) and an exhausted fuel are the two `Fault`s.
-/

namespace STMPE811

/-! ## Data model -/

/-- Registers of the chip the driver addresses: the `STMPE811_REG_*` macros of `stmpe811.h`,
used by name only. -/
inductive Reg
  | STMPE811_REG_SYS_CTRL1
  | STMPE811_REG_SYS_CTRL2
  | STMPE811_REG_INT_CTRL
  | STMPE811_REG_INT_EN
  | STMPE811_REG_INT_STA
  | STMPE811_REG_ADC_CTRL1
  | STMPE811_REG_ADC_CTRL2
  | STMPE811_REG_GPIO_AF
  | STMPE811_REG_TSC_CTRL
  | STMPE811_REG_TSC_CFG
  | STMPE811_REG_WDW_TR_X
  | STMPE811_REG_WDW_TR_Y
  | STMPE811_REG_WDW_BL_X
  | STMPE811_REG_WDW_BL_Y
  | STMPE811_REG_FIFO_TH
  | STMPE811_REG_FIFO_STA
  | STMPE811_REG_TSC_DATA_X
  | STMPE811_REG_TSC_DATA_Y
  | STMPE811_REG_TSC_DATA_Z
  | STMPE811_REG_TSC_FRACT_XYZ
  | STMPE811_REG_TSC_I_DRIVE
  deriving DecidableEq, Repr

open Reg

/-- One call of the driver into its collaborators, with the value a read returned. -/
inductive Effect
  | init_board
  | write_reg (reg : Reg) (n : Nat) (val : Nat)
  | read_reg (reg : Reg) (n : Nat) (val : Nat)
  | getpin_irq (level : Bool)
  | chThdSleepMilliseconds (ms : Nat)
  | ginputMouseWakeup
  deriving DecidableEq, Repr

/-- The collaborators of the driver (board file, GDISP, GINPUT, RTOS) over hardware states `σ`. -/
structure Env (σ : Type) where
  init_board : σ → σ
  write_reg : Reg → Nat → Nat → σ → σ
  read_reg : Reg → Nat → σ → Nat × σ
  getpin_irq : σ → Bool × σ
  chThdSleepMilliseconds : Nat → σ → σ
  ginputMouseWakeup : σ → σ
  gdispGetWidth : σ → Int
  gdispGetHeight : σ → Int

/-- The preprocessor switches that select the code paths of the driver. -/
structure Config where
  STMP811_NO_GPIO_IRQPIN : Bool
  STMP811_SLOW_CPU : Bool
  GINPUT_MOUSE_NEED_CALIBRATION : Bool
  deriving DecidableEq, Repr

/-- The statics of the driver (`x`, `y`, `z`, `touched`), the hardware state and the trace of
the calls made so far (oldest first). -/
structure Driver (σ : Type) where
  x : Int
  y : Int
  z : Int
  touched : Nat
  hw : σ
  trace : List Effect

/-- The structure `MouseReading` that `ginput_lld_mouse_get_reading` fills. -/
structure MouseReading where
  x : Int
  y : Int
  z : Int
  buttons : Nat
  deriving DecidableEq, Repr

/-- Why a call of the model has no result: the drain loop used up its fuel, or the rescale
divided by zero. -/
inductive Fault
  | out_of_fuel
  | division_by_zero
  deriving DecidableEq, Repr

/-- Modelled from the spec: the typedef `coord_t` lives in `gdisp.h`, outside the driver; the
spec gives coordinates as signed/unsigned scalars with a pressure scale of -100..100, and GDISP
declares `typedef int16_t coord_t`.  This is the cast `(coord_t)v`, a wrap to sixteen bits in
two's complement, the identity on `[-32768, 32767]`. -/
def coord_t (v : Int) : Int := (v + 32768) % 65536 - 32768

/-- The cast `(uint8_t)v`. -/
def uint8_t (v : Nat) : Nat := v % 256

/-- Modelled from the spec: the macro `GINPUT_TOUCH_PRESSED` lives in `ginput/mouse.h`, outside
the driver; the spec calls it the pressed flag of the buttons bitmask, and GINPUT defines it as
`GINPUT_MOUSE_BTN_LEFT`, bit 0. -/
def GINPUT_TOUCH_PRESSED : Nat := 0x0001

/-! ## Calls into the collaborators, logged -/

section Calls

variable {σ : Type}

/-- The call `init_board()`. -/
def init_board (e : Env σ) (d : Driver σ) : Driver σ :=
  { d with hw := e.init_board d.hw, trace := d.trace ++ [Effect.init_board] }

/-- The call `write_reg(reg, n, val)`. -/
def write_reg (e : Env σ) (reg : Reg) (n val : Nat) (d : Driver σ) : Driver σ :=
  { d with hw := e.write_reg reg n val d.hw, trace := d.trace ++ [Effect.write_reg reg n val] }

/-- The call `read_reg(reg, n)`: the value read and the driver afterwards. -/
def read_reg (e : Env σ) (reg : Reg) (n : Nat) (d : Driver σ) : Nat × Driver σ :=
  ((e.read_reg reg n d.hw).1,
   { d with hw := (e.read_reg reg n d.hw).2,
            trace := d.trace ++ [Effect.read_reg reg n (e.read_reg reg n d.hw).1] })

/-- The call `getpin_irq()`. -/
def getpin_irq (e : Env σ) (d : Driver σ) : Bool × Driver σ :=
  ((e.getpin_irq d.hw).1,
   { d with hw := (e.getpin_irq d.hw).2,
            trace := d.trace ++ [Effect.getpin_irq (e.getpin_irq d.hw).1] })

/-- The call `chThdSleepMilliseconds(ms)`. -/
def chThdSleepMilliseconds (e : Env σ) (ms : Nat) (d : Driver σ) : Driver σ :=
  { d with hw := e.chThdSleepMilliseconds ms d.hw,
           trace := d.trace ++ [Effect.chThdSleepMilliseconds ms] }

/-- The call `ginputMouseWakeup()`. -/
def ginputMouseWakeup (e : Env σ) (d : Driver σ) : Driver σ :=
  { d with hw := e.ginputMouseWakeup d.hw, trace := d.trace ++ [Effect.ginputMouseWakeup] }

end Calls

/-! ## `ginput_lld_mouse_init` -/

section Init

variable {σ : Type}

/-- The function `ginput_lld_mouse_init` (lines 72-103). -/
def ginput_lld_mouse_init (cfg : Config) (e : Env σ) (d : Driver σ) : Driver σ :=
  let d := init_board e d
  let d := write_reg e STMPE811_REG_SYS_CTRL1 1 0x02 d
  let d := chThdSleepMilliseconds e 10 d
  let d := write_reg e STMPE811_REG_SYS_CTRL2 1 0x0C d
  let d := if cfg.STMP811_NO_GPIO_IRQPIN then write_reg e STMPE811_REG_INT_EN 1 0x00 d
           else write_reg e STMPE811_REG_INT_EN 1 0x01 d
  let d := write_reg e STMPE811_REG_ADC_CTRL1 1 0x48 d
  let d := chThdSleepMilliseconds e 2 d
  let d := write_reg e STMPE811_REG_ADC_CTRL2 1 0x01 d
  let d := write_reg e STMPE811_REG_GPIO_AF 1 0x00 d
  let d := write_reg e STMPE811_REG_TSC_CFG 1 0x9A d
  let d := write_reg e STMPE811_REG_FIFO_TH 1 0x40 d
  let d := write_reg e STMPE811_REG_FIFO_STA 1 0x01 d
  let d := write_reg e STMPE811_REG_FIFO_STA 1 0x00 d
  let d := write_reg e STMPE811_REG_TSC_FRACT_XYZ 1 0x07 d
  let d := write_reg e STMPE811_REG_TSC_I_DRIVE 1 0x01 d
  let d := write_reg e STMPE811_REG_TSC_CTRL 1 0x00 d
  let d := write_reg e STMPE811_REG_TSC_CTRL 1 0x01 d
  let d := write_reg e STMPE811_REG_INT_STA 1 0xFF d
  let d := if !cfg.STMP811_NO_GPIO_IRQPIN then
             { (read_reg e STMPE811_REG_TSC_CTRL 1 d).2 with
               touched := uint8_t (read_reg e STMPE811_REG_TSC_CTRL 1 d).1 &&& 0x80 }
           else d
  write_reg e STMPE811_REG_INT_CTRL 1 0x01 d

end Init

/-! ## `ginput_lld_mouse_get_reading` -/

section GetReading

variable {σ : Type}

/-- Lines 123-138: the touched status.  Returns `clearfifo` and the driver with the latch
`touched` updated: by polling `TSC_CTRL` (`STMP811_NO_GPIO_IRQPIN`), or from the IRQ pin. -/
def touched_status (cfg : Config) (e : Env σ) (d : Driver σ) : Bool × Driver σ :=
  if cfg.STMP811_NO_GPIO_IRQPIN then
    let last_touched := d.touched
    let r := read_reg e STMPE811_REG_TSC_CTRL 1 d
    let d1 := { r.2 with touched := uint8_t r.1 &&& 0x80 }
    (decide (d1.touched ≠ last_touched), d1)
  else
    let p := getpin_irq e d
    if p.1 then
      let d1 := write_reg e STMPE811_REG_INT_STA 1 0xFF p.2
      let r := read_reg e STMPE811_REG_TSC_CTRL 1 d1
      (true, { r.2 with touched := uint8_t r.1 &&& 0x80 })
    else
      (false, p.2)

/-- Lines 149-152: `clearfifo` at the head of the drain loop.  With `STMP811_SLOW_CPU` the
assignment `clearfifo = true` is unconditional; otherwise it is guarded by
`!clearfifo && (read_reg(FIFO_STA) & 0xD0)`, which reads the register only if `clearfifo` is
still false. -/
def fifo_check (cfg : Config) (e : Env σ) (clearfifo : Bool) (d : Driver σ) : Bool × Driver σ :=
  if cfg.STMP811_SLOW_CPU then (true, d)
  else if clearfifo then (true, d)
  else
    let r := read_reg e STMPE811_REG_FIFO_STA 1 d
    if r.1 &&& 0xD0 ≠ 0 then (true, r.2) else (false, r.2)

/-- One pass through the body of the `do … while` (lines 157-159): read X, Y and Z. -/
def read_xyz (e : Env σ) (d : Driver σ) : Driver σ :=
  let rx := read_reg e STMPE811_REG_TSC_DATA_X 2 d
  let d1 := { rx.2 with x := coord_t rx.1 }
  let ry := read_reg e STMPE811_REG_TSC_DATA_Y 2 d1
  let d2 := { ry.2 with y := coord_t ry.1 }
  let rz := read_reg e STMPE811_REG_TSC_DATA_Z 1 d2
  { rz.2 with z := coord_t rz.1 }

/-- Lines 154-160: the `do … while(clearfifo && !(read_reg(FIFO_STA) & 0x20))` loop, at most
`fuel` passes. -/
def drain (e : Env σ) (clearfifo : Bool) : Nat → Driver σ → Except Fault (Driver σ)
  | 0, _ => Except.error Fault.out_of_fuel
  | fuel + 1, d =>
    let d3 := read_xyz e d
    if clearfifo then
      let st := read_reg e STMPE811_REG_FIFO_STA 1 d3
      if st.1 &&& 0x20 = 0 then drain e clearfifo fuel st.2 else Except.ok st.2
    else Except.ok d3

/-- Line 164: `gdispGetWidth() - x / (4096/gdispGetWidth())` assigned to a `coord_t`; `W` is the
width. -/
def rescale_x (W x : Int) : Except Fault Int :=
  if W = 0 ∨ Int.tdiv 4096 W = 0 then Except.error Fault.division_by_zero
  else Except.ok (coord_t (W - Int.tdiv x (Int.tdiv 4096 W)))

/-- Line 165: `y / (4096/gdispGetHeight())` assigned to a `coord_t`; `H` is the height. -/
def rescale_y (H y : Int) : Except Fault Int :=
  if H = 0 ∨ Int.tdiv 4096 H = 0 then Except.error Fault.division_by_zero
  else Except.ok (coord_t (Int.tdiv y (Int.tdiv 4096 H)))

/-- Lines 163-166: the rescale of `x` and `y`, compiled out by `GINPUT_MOUSE_NEED_CALIBRATION`. -/
def rescale (cfg : Config) (e : Env σ) (d : Driver σ) : Except Fault (Driver σ) :=
  if cfg.GINPUT_MOUSE_NEED_CALIBRATION then Except.ok d
  else
    match rescale_x (coord_t (e.gdispGetWidth d.hw)) d.x with
    | Except.error f => Except.error f
    | Except.ok x1 =>
      match rescale_y (coord_t (e.gdispGetHeight d.hw)) d.y with
      | Except.error f => Except.error f
      | Except.ok y1 => Except.ok { d with x := x1, y := y1 }

/-- Line 167, right-hand side: `(((z&0xFF) * 100)>>8) + 1`. -/
def pressure (z : Int) : Int := ((Int.land z 0xFF * 100) >>> (8 : Nat)) + 1

/-- Lines 175-177: wake the mouse service if no flush was made and the FIFO is not empty. -/
def trailing_check (e : Env σ) (clearfifo : Bool) (d : Driver σ) : Driver σ :=
  if clearfifo then d
  else
    let st := read_reg e STMPE811_REG_FIFO_STA 1 d
    if st.1 &&& 0x20 = 0 then ginputMouseWakeup e st.2 else st.2

/-- The function `ginput_lld_mouse_get_reading` (lines 119-179): the reading written to `*pt`
and the driver afterwards. -/
def ginput_lld_mouse_get_reading (cfg : Config) (e : Env σ) (fuel : Nat) (d : Driver σ) :
    Except Fault (MouseReading × Driver σ) :=
  let s1 := touched_status cfg e d
  if s1.2.touched = 0 then
    Except.ok ({ x := s1.2.x, y := s1.2.y, z := 0, buttons := 0 }, s1.2)
  else
    let s2 := fifo_check cfg e s1.1 s1.2
    match drain e s2.1 fuel s2.2 with
    | Except.error f => Except.error f
    | Except.ok d3 =>
      match rescale cfg e d3 with
      | Except.error f => Except.error f
      | Except.ok d4 =>
        let d5 := { d4 with z := coord_t (pressure d4.z) }
        Except.ok ({ x := d5.x, y := d5.y, z := d5.z, buttons := GINPUT_TOUCH_PRESSED },
                   trailing_check e s2.1 d5)

/-- A sequence of calls of `ginput_lld_mouse_get_reading`: the `i`-th call finds the hardware in
the `i`-th state of the list, the statics and the trace carry over.  Returns each call's reading
with the driver after it. -/
def get_readings (cfg : Config) (e : Env σ) (fuel : Nat) :
    List σ → Driver σ → Except Fault (List (MouseReading × Driver σ))
  | [], _ => Except.ok []
  | hw :: rest, d =>
    match ginput_lld_mouse_get_reading cfg e fuel { d with hw := hw } with
    | Except.error f => Except.error f
    | Except.ok p =>
      match get_readings cfg e fuel rest p.2 with
      | Except.error f => Except.error f
      | Except.ok out => Except.ok (p :: out)

end GetReading

/-! ## Observations on traces -/

/-- The number of calls `ginputMouseWakeup()` in a trace. -/
def wakeups (t : List Effect) : Nat := t.count Effect.ginputMouseWakeup

/-- Whether an effect is a read of register `reg`. -/
def is_read (reg : Reg) : Effect → Bool
  | Effect.read_reg r _ _ => decide (r = reg)
  | _ => false

/-- The number of reads of register `reg` in a trace. -/
def reads (reg : Reg) (t : List Effect) : Nat := t.countP (is_read reg)

/-- The value of the last read of `reg` seen so far, `acc`, updated with one more effect. -/
def note_read (reg : Reg) (acc : Option Nat) : Effect → Option Nat
  | Effect.read_reg r _ v => if r = reg then some v else acc
  | _ => acc

/-- The value returned by the last read of register `reg` in a trace, if there is one. -/
def last_read (reg : Reg) (t : List Effect) : Option Nat :=
  t.foldl (note_read reg) none

/-! ## A simulated chip, as a concrete environment -/

/-- A simulated STMPE811: the level of the IRQ pin, the value of `TSC_CTRL`, the flag bits that
`FIFO_STA` shows while the FIFO holds entries, and the FIFO of raw `(x, y, z)` entries, oldest
first. -/
structure SimChip where
  pin : Bool
  tsc_ctrl : Nat
  fifo_flags : Nat
  fifo : List (Nat × Nat × Nat)
  deriving DecidableEq, Repr

/-- The simulated chip behind a display of `W` by `H` pixels.  `FIFO_STA` reads `0x20` (empty)
once the FIFO has no entry left; the data registers show the oldest entry, and the read of
`TSC_DATA_Z` takes it out of the FIFO; writing `0xFF` to `INT_STA` releases the IRQ pin. -/
def simEnv (W H : Int) : Env SimChip where
  init_board := fun c => c
  write_reg := fun reg _ val c =>
    if reg = STMPE811_REG_INT_STA ∧ val = 0xFF then { c with pin := false } else c
  read_reg := fun reg _ c =>
    match reg with
    | STMPE811_REG_TSC_CTRL => (c.tsc_ctrl, c)
    | STMPE811_REG_FIFO_STA => (if c.fifo.isEmpty then 0x20 else c.fifo_flags, c)
    | STMPE811_REG_TSC_DATA_X => ((c.fifo.headD (0, 0, 0)).1, c)
    | STMPE811_REG_TSC_DATA_Y => ((c.fifo.headD (0, 0, 0)).2.1, c)
    | STMPE811_REG_TSC_DATA_Z => ((c.fifo.headD (0, 0, 0)).2.2, { c with fifo := c.fifo.tail })
    | _ => (0, c)
  getpin_irq := fun c => (c.pin, c)
  chThdSleepMilliseconds := fun _ c => c
  ginputMouseWakeup := fun c => c
  gdispGetWidth := fun _ => W
  gdispGetHeight := fun _ => H

/-- A driver with stored reading `(x, y, z)` and latch `touched`, on hardware `hw`, with an
empty trace. -/
def driver_at {σ : Type} (x y z : Int) (touched : Nat) (hw : σ) : Driver σ :=
  { x := x, y := y, z := z, touched := touched, hw := hw, trace := [] }

/-- The interrupt-pin configuration (the defaults of lines 48-53) with the rescale compiled in. -/
def cfg_irq : Config :=
  { STMP811_NO_GPIO_IRQPIN := false, STMP811_SLOW_CPU := false,
    GINPUT_MOUSE_NEED_CALIBRATION := false }

/-- The polling configuration with the rescale compiled in. -/
def cfg_poll : Config :=
  { STMP811_NO_GPIO_IRQPIN := true, STMP811_SLOW_CPU := false,
    GINPUT_MOUSE_NEED_CALIBRATION := false }

/-- The interrupt-pin configuration with calibration done downstream. -/
def cfg_cal : Config :=
  { STMP811_NO_GPIO_IRQPIN := false, STMP811_SLOW_CPU := false,
    GINPUT_MOUSE_NEED_CALIBRATION := true }

/-- The reading of a call, without the driver. -/
def reading_of {σ : Type} (r : Except Fault (MouseReading × Driver σ)) :
    Except Fault MouseReading :=
  match r with
  | Except.error f => Except.error f
  | Except.ok p => Except.ok p.1

/-- The trace of a call, without the reading. -/
def trace_of {σ : Type} (r : Except Fault (MouseReading × Driver σ)) :
    Except Fault (List Effect) :=
  match r with
  | Except.error f => Except.error f
  | Except.ok p => Except.ok p.2.trace

/-- One read cycle of the drain loop in flush mode: the X, Y, Z reads and then the read of
`FIFO_STA` in the loop condition.  Returns the status read and the driver afterwards. -/
def read_cycle {σ : Type} (e : Env σ) (d : Driver σ) : Nat × Driver σ :=
  read_reg e STMPE811_REG_FIFO_STA 1 (read_xyz e d)

/-- The driver after `k` read cycles. -/
def after_cycles {σ : Type} (e : Env σ) : Nat → Driver σ → Driver σ
  | 0, d => d
  | k + 1, d => after_cycles e k (read_cycle e d).2

/-- The head of the drain loop (after line 152): the final `clearfifo` and the driver there. -/
def loop_entry {σ : Type} (cfg : Config) (e : Env σ) (d : Driver σ) : Bool × Driver σ :=
  fifo_check cfg e (touched_status cfg e d).1 (touched_status cfg e d).2

/-- The stored `x`, `y`, `z` are the casts of the values last read from the X, Y and Z data
registers. -/
def holds_last_raw {σ : Type} (d : Driver σ) : Prop :=
  ∃ vx vy vz : Nat,
    last_read STMPE811_REG_TSC_DATA_X d.trace = some vx ∧
    last_read STMPE811_REG_TSC_DATA_Y d.trace = some vy ∧
    last_read STMPE811_REG_TSC_DATA_Z d.trace = some vz ∧
    d.x = coord_t vx ∧ d.y = coord_t vy ∧ d.z = coord_t vz

/-- The result of a call that returned, and `dflt` for one that did not. -/
def result_or {α : Type} (dflt : α) : Except Fault α → α
  | Except.ok a => a
  | Except.error _ => dflt

/-- Five hardware states for five polls: a touch with one FIFO entry, two polls with the panel
released, a second touch, a release. -/
def press_release_twice : List SimChip :=
  [⟨false, 0x81, 0, [(2048, 1024, 128)]⟩, ⟨false, 0x01, 0, []⟩, ⟨false, 0x01, 0, []⟩,
   ⟨false, 0x81, 0, [(1024, 2048, 255)]⟩, ⟨false, 0x01, 0, []⟩]

/-- What one call does to the stored reading: `p` is the reading returned and the driver after a
call made with `prev` as the driver before.  An untouched call (latch clear after it) returns
the stored `x`, `y` with `z = 0`, no buttons, and keeps the stored reading; a touched call stores
what it returns. -/
def call_keeps_or_stores {σ : Type} (prev p : MouseReading × Driver σ) : Prop :=
  (p.2.touched = 0 →
    (p.1.x = prev.2.x ∧ p.1.y = prev.2.y ∧ p.1.z = 0 ∧ p.1.buttons = 0) ∧
    (p.2.x = prev.2.x ∧ p.2.y = prev.2.y ∧ p.2.z = prev.2.z)) ∧
  (p.2.touched ≠ 0 → p.2.x = p.1.x ∧ p.2.y = p.1.y ∧ p.2.z = p.1.z)

/-- Whether an effect is a register write. -/
def is_write : Effect → Bool
  | Effect.write_reg _ _ _ => true
  | _ => false

/-- The number of register writes in a trace. -/
def writes (t : List Effect) : Nat := t.countP is_write

/-- The sleeps of a trace, in order, in milliseconds. -/
def sleeps : List Effect → List Nat
  | [] => []
  | Effect.chThdSleepMilliseconds ms :: rest => ms :: sleeps rest
  | _ :: rest => sleeps rest

/-- The simulated chip with a faulty FIFO status: `FIFO_STA` always reads 0, so the empty bit
`0x20` never shows; everything else as in `simEnv`. -/
def simEnvStuck (W H : Int) : Env SimChip :=
  { simEnv W H with
    read_reg := fun reg n c =>
      if reg = STMPE811_REG_FIFO_STA then (0, c) else (simEnv W H).read_reg reg n c }

/-- The effects a call may have once the touched status is known: a read of `FIFO_STA` or of
the X, Y or Z data register, or the wakeup of the mouse service. -/
def after_status : Effect → Bool
  | Effect.read_reg STMPE811_REG_FIFO_STA _ _ => true
  | Effect.read_reg STMPE811_REG_TSC_DATA_X _ _ => true
  | Effect.read_reg STMPE811_REG_TSC_DATA_Y _ _ => true
  | Effect.read_reg STMPE811_REG_TSC_DATA_Z _ _ => true
  | Effect.ginputMouseWakeup => true
  | _ => false

/-! ## Lemmas: what each step leaves alone -/

section Lemmas

variable {σ : Type}

@[simp] theorem read_reg_x (e : Env σ) (reg : Reg) (n : Nat) (d : Driver σ) :
    (read_reg e reg n d).2.x = d.x := rfl

@[simp] theorem read_reg_y (e : Env σ) (reg : Reg) (n : Nat) (d : Driver σ) :
    (read_reg e reg n d).2.y = d.y := rfl

@[simp] theorem read_reg_z (e : Env σ) (reg : Reg) (n : Nat) (d : Driver σ) :
    (read_reg e reg n d).2.z = d.z := rfl

@[simp] theorem read_reg_touched (e : Env σ) (reg : Reg) (n : Nat) (d : Driver σ) :
    (read_reg e reg n d).2.touched = d.touched := rfl

@[simp] theorem read_reg_trace (e : Env σ) (reg : Reg) (n : Nat) (d : Driver σ) :
    (read_reg e reg n d).2.trace = d.trace ++ [Effect.read_reg reg n (read_reg e reg n d).1] :=
  rfl

@[simp] theorem read_reg_val (e : Env σ) (reg : Reg) (n : Nat) (d : Driver σ) :
    (read_reg e reg n d).1 = (e.read_reg reg n d.hw).1 := rfl

theorem touched_status_xyz (cfg : Config) (e : Env σ) (d : Driver σ) :
    (touched_status cfg e d).2.x = d.x ∧ (touched_status cfg e d).2.y = d.y ∧
      (touched_status cfg e d).2.z = d.z := by
  simp only [touched_status]
  split_ifs <;> exact ⟨rfl, rfl, rfl⟩

theorem fifo_check_frame (cfg : Config) (e : Env σ) (c : Bool) (d : Driver σ) :
    (fifo_check cfg e c d).2.x = d.x ∧ (fifo_check cfg e c d).2.y = d.y ∧
      (fifo_check cfg e c d).2.z = d.z ∧ (fifo_check cfg e c d).2.touched = d.touched := by
  simp only [fifo_check]
  split_ifs <;> exact ⟨rfl, rfl, rfl, rfl⟩

theorem read_xyz_touched (e : Env σ) (d : Driver σ) : (read_xyz e d).touched = d.touched := by
  simp [read_xyz]

theorem drain_touched (e : Env σ) (c : Bool) (fuel : Nat) :
    ∀ d d3 : Driver σ, drain e c fuel d = Except.ok d3 → d3.touched = d.touched := by
  induction fuel with
  | zero => intro d d3 h; simp [drain] at h
  | succ n ih =>
    intro d d3 h
    simp only [drain] at h
    split_ifs at h with hc hs
    · exact (ih _ _ h).trans (read_xyz_touched e d)
    · injection h with h; rw [← h]; exact read_xyz_touched e d
    · injection h with h; rw [← h]; exact read_xyz_touched e d

theorem rescale_frame (cfg : Config) (e : Env σ) (d d4 : Driver σ)
    (h : rescale cfg e d = Except.ok d4) :
    d4.z = d.z ∧ d4.touched = d.touched ∧ d4.hw = d.hw ∧ d4.trace = d.trace := by
  simp only [rescale] at h
  split_ifs at h
  · injection h with h; rw [← h]; exact ⟨rfl, rfl, rfl, rfl⟩
  · split at h
    · exact absurd h (by simp)
    · split at h
      · exact absurd h (by simp)
      · injection h with h; rw [← h]; exact ⟨rfl, rfl, rfl, rfl⟩

theorem trailing_check_frame (e : Env σ) (c : Bool) (d : Driver σ) :
    (trailing_check e c d).x = d.x ∧ (trailing_check e c d).y = d.y ∧
      (trailing_check e c d).z = d.z ∧ (trailing_check e c d).touched = d.touched := by
  simp only [trailing_check]
  split_ifs <;> exact ⟨rfl, rfl, rfl, rfl⟩

/-- An untouched call returns at once. -/
theorem get_reading_of_untouched (cfg : Config) (e : Env σ) (fuel : Nat) (d : Driver σ)
    (h : (touched_status cfg e d).2.touched = 0) :
    ginput_lld_mouse_get_reading cfg e fuel d =
      Except.ok ({ x := (touched_status cfg e d).2.x, y := (touched_status cfg e d).2.y, z := 0,
                   buttons := 0 }, (touched_status cfg e d).2) := by
  simp [ginput_lld_mouse_get_reading, h]

/-- A touched call that returns went through the drain loop, the rescale, the pressure
normalisation and the trailing check. -/
theorem get_reading_of_touched (cfg : Config) (e : Env σ) (fuel : Nat) (d : Driver σ)
    (r : MouseReading) (d' : Driver σ)
    (ht : (touched_status cfg e d).2.touched ≠ 0)
    (h : ginput_lld_mouse_get_reading cfg e fuel d = Except.ok (r, d')) :
    ∃ d3 d4 : Driver σ,
      drain e (fifo_check cfg e (touched_status cfg e d).1 (touched_status cfg e d).2).1 fuel
          (fifo_check cfg e (touched_status cfg e d).1 (touched_status cfg e d).2).2
        = Except.ok d3 ∧
      rescale cfg e d3 = Except.ok d4 ∧
      r = { x := d4.x, y := d4.y, z := coord_t (pressure d4.z),
            buttons := GINPUT_TOUCH_PRESSED } ∧
      d' = trailing_check e
            (fifo_check cfg e (touched_status cfg e d).1 (touched_status cfg e d).2).1
            { d4 with z := coord_t (pressure d4.z) } := by
  simp only [ginput_lld_mouse_get_reading, if_neg ht] at h
  split at h
  · exact absurd h (by simp)
  · rename_i d3 h3
    split at h
    · exact absurd h (by simp)
    · rename_i d4 h4
      injection h with h
      injection h with hr hd
      exact ⟨d3, d4, h3, h4, hr.symm, hd.symm⟩

/-! ## Lemmas: arithmetic of the casts and of the pressure -/

theorem coord_t_id (v : Int) (h1 : -32768 ≤ v) (h2 : v < 32768) : coord_t v = v := by
  unfold coord_t
  omega

theorem land_byte_bounds (z : Int) : 0 ≤ Int.land z 0xFF ∧ Int.land z 0xFF ≤ 255 := by
  cases z with
  | ofNat m =>
    have h : Int.land (Int.ofNat m) 0xFF = ((m &&& 255 : Nat) : Int) := rfl
    rw [h]
    have := @Nat.and_le_right m 255
    omega
  | negSucc m =>
    have h : Int.land (Int.negSucc m) 0xFF = ((Nat.ldiff 255 m : Nat) : Int) := rfl
    rw [h]
    have h2 : Nat.ldiff 255 m < 2 ^ 8 := by
      apply Nat.lt_pow_two_of_testBit
      intro i hi
      rw [Nat.testBit_ldiff]
      have h255 : Nat.testBit 255 i = false := by
        have h8 := Nat.testBit_two_pow_sub_one 8 i
        simp at h8
        rw [h8]
        simp
        omega
      simp [h255]
    omega

theorem pressure_bounds (z : Int) : 1 ≤ pressure z ∧ pressure z ≤ 100 := by
  have h := land_byte_bounds z
  unfold pressure
  rw [Int.shiftRight_eq_div_pow]
  norm_num
  constructor
  · apply Int.ediv_nonneg <;> omega
  · omega

theorem pressure_of_byte (v : Nat) (hv : v ≤ 255) : pressure (v : Int) = (v : Int) * 100 / 256 + 1 := by
  have h : Int.land ((v : Nat) : Int) 0xFF = ((v &&& 255 : Nat) : Int) := rfl
  have h2 : v &&& 255 = v := by
    have := Nat.and_pow_two_sub_one_eq_mod v 8
    norm_num at this
    rw [this]
    omega
  unfold pressure
  rw [h, h2, Int.shiftRight_eq_div_pow]
  norm_num

end Lemmas

/-! ## The claims -/

section Claims

variable {σ : Type}

/-- C1: whatever the stored `x`, `y`, `z`, a call of `ginput_lld_mouse_get_reading` whose latch
`touched` is 0 after the status step returns (with any fuel) the stored `x` and `y`, `z = 0` and
`buttons = 0`. -/
theorem untouched_returns_stored (cfg : Config) (e : Env σ) (fuel : Nat) (d : Driver σ)
    (h : (touched_status cfg e d).2.touched = 0) :
    ginput_lld_mouse_get_reading cfg e fuel d =
      Except.ok ({ x := d.x, y := d.y, z := 0, buttons := 0 }, (touched_status cfg e d).2) := by
  rw [get_reading_of_untouched cfg e fuel d h, (touched_status_xyz cfg e d).1,
    (touched_status_xyz cfg e d).2.1]

/-- Witness of C1: IRQ pin low and latch clear, stored reading `(7, 8, 9)`. -/
theorem untouched_returns_stored_witness :
    (touched_status cfg_irq (simEnv 320 240)
        (driver_at 7 8 9 0 ⟨false, 0x81, 0, [(1, 2, 3)]⟩)).2.touched = 0 ∧
    ginput_lld_mouse_get_reading cfg_irq (simEnv 320 240) 0
        (driver_at 7 8 9 0 ⟨false, 0x81, 0, [(1, 2, 3)]⟩) =
      Except.ok ({ x := 7, y := 8, z := 0, buttons := 0 },
        (touched_status cfg_irq (simEnv 320 240)
          (driver_at 7 8 9 0 ⟨false, 0x81, 0, [(1, 2, 3)]⟩)).2) :=
  ⟨rfl, untouched_returns_stored cfg_irq (simEnv 320 240) 0
    (driver_at 7 8 9 0 ⟨false, 0x81, 0, [(1, 2, 3)]⟩) rfl⟩

/-- C4: on a raw byte `v` in `[0, 255]` the normalisation `(((z&0xFF) * 100)>>8) + 1` of
`ginput_lld_mouse_get_reading` is `v * 100 / 256 + 1`, lies in `[1, 100]`, and is monotonic
non-decreasing: `u ≤ v` gives `pressure u ≤ pressure v`. -/
theorem pressure_range_monotone (u v : Nat) (huv : u ≤ v) (hv : v ≤ 255) :
    pressure (v : Int) = (v : Int) * 100 / 256 + 1 ∧
    1 ≤ pressure (v : Int) ∧ pressure (v : Int) ≤ 100 ∧
    pressure (u : Int) ≤ pressure (v : Int) := by
  refine ⟨pressure_of_byte v hv, (pressure_bounds _).1, (pressure_bounds _).2, ?_⟩
  rw [pressure_of_byte v hv, pressure_of_byte u (le_trans huv hv)]
  have h : (u : Int) * 100 / 256 ≤ (v : Int) * 100 / 256 :=
    Int.ediv_le_ediv (by norm_num) (by omega)
  omega

/-- Witness of C4: the bytes 0 and 255, the ends of the range. -/
theorem pressure_range_monotone_witness :
    (0 ≤ 255 ∧ 255 ≤ 255) ∧
    (pressure ((255 : Nat) : Int) = ((255 : Nat) : Int) * 100 / 256 + 1 ∧
     1 ≤ pressure ((255 : Nat) : Int) ∧ pressure ((255 : Nat) : Int) ≤ 100 ∧
     pressure ((0 : Nat) : Int) ≤ pressure ((255 : Nat) : Int)) :=
  ⟨⟨by decide, by decide⟩, pressure_range_monotone 0 255 (by decide) (by decide)⟩

/-- C5: whatever the Z data register returns, a call of `ginput_lld_mouse_get_reading` that
returns has `z = 0` exactly when the latch `touched` is clear after the status step, and
`buttons = GINPUT_TOUCH_PRESSED` exactly when it is set; a touched reading has `1 ≤ z ≤ 100`. -/
theorem z_zero_iff_untouched (cfg : Config) (e : Env σ) (fuel : Nat) (d : Driver σ)
    (r : MouseReading) (d' : Driver σ)
    (h : ginput_lld_mouse_get_reading cfg e fuel d = Except.ok (r, d')) :
    (r.z = 0 ↔ (touched_status cfg e d).2.touched = 0) ∧
    (r.buttons = GINPUT_TOUCH_PRESSED ↔ (touched_status cfg e d).2.touched ≠ 0) ∧
    ((touched_status cfg e d).2.touched ≠ 0 → 1 ≤ r.z ∧ r.z ≤ 100) := by
  by_cases ht : (touched_status cfg e d).2.touched = 0
  · rw [get_reading_of_untouched cfg e fuel d ht] at h
    injection h with h
    injection h with hr hd
    subst hr
    simp [ht, GINPUT_TOUCH_PRESSED]
  · obtain ⟨d3, d4, -, -, hr, -⟩ := get_reading_of_touched cfg e fuel d r d' ht h
    have hb := pressure_bounds d4.z
    have hz : r.z = pressure d4.z := by
      rw [hr]
      exact coord_t_id _ (by omega) (by omega)
    have hbt : r.buttons = GINPUT_TOUCH_PRESSED := by rw [hr]
    refine ⟨⟨fun h0 => ?_, fun h0 => absurd h0 ht⟩, ⟨fun _ => ht, fun _ => hbt⟩, fun _ => ?_⟩
    · omega
    · omega

/-- Witness of C5: a touched call on the simulated chip with the Z register reading 0 returns
`z = 1`, not the untouched value 0. -/
theorem z_zero_iff_untouched_witness :
    ginput_lld_mouse_get_reading cfg_irq (simEnv 320 240) 1
        (driver_at 7 8 9 0 ⟨true, 0x81, 0, [(2048, 1024, 0)]⟩) =
      Except.ok ({ x := 150, y := 60, z := 1, buttons := 1 },
        { x := 150, y := 60, z := 1, touched := 0x80, hw := ⟨false, 0x81, 0, []⟩,
          trace := [Effect.getpin_irq true, Effect.write_reg STMPE811_REG_INT_STA 1 0xFF,
            Effect.read_reg STMPE811_REG_TSC_CTRL 1 0x81,
            Effect.read_reg STMPE811_REG_TSC_DATA_X 2 2048,
            Effect.read_reg STMPE811_REG_TSC_DATA_Y 2 1024,
            Effect.read_reg STMPE811_REG_TSC_DATA_Z 1 0,
            Effect.read_reg STMPE811_REG_FIFO_STA 1 0x20] }) ∧
    ((touched_status cfg_irq (simEnv 320 240)
        (driver_at 7 8 9 0 ⟨true, 0x81, 0, [(2048, 1024, 0)]⟩)).2.touched ≠ 0 →
      (1 : Int) ≤ (⟨150, 60, 1, 1⟩ : MouseReading).z ∧
      (⟨150, 60, 1, 1⟩ : MouseReading).z ≤ 100) :=
  ⟨rfl, (z_zero_iff_untouched cfg_irq (simEnv 320 240) 1
    (driver_at 7 8 9 0 ⟨true, 0x81, 0, [(2048, 1024, 0)]⟩) ⟨150, 60, 1, 1⟩ _ rfl).2.2⟩

/-- One call, seen from the stored reading: see `call_keeps_or_stores`. -/
theorem get_reading_keeps_or_stores (cfg : Config) (e : Env σ) (fuel : Nat) (d : Driver σ)
    (r0 : MouseReading) (hw : σ) (p : MouseReading × Driver σ)
    (h : ginput_lld_mouse_get_reading cfg e fuel { d with hw := hw } = Except.ok p) :
    call_keeps_or_stores (r0, d) p := by
  obtain ⟨r, d'⟩ := p
  have hxyz := touched_status_xyz cfg e { d with hw := hw }
  by_cases ht : (touched_status cfg e { d with hw := hw }).2.touched = 0
  · rw [get_reading_of_untouched cfg e fuel _ ht] at h
    injection h with h
    injection h with hr hd
    subst hr hd
    refine ⟨fun _ => ⟨⟨hxyz.1, hxyz.2.1, rfl, rfl⟩, hxyz.1, hxyz.2.1, hxyz.2.2⟩,
      fun hne => absurd ht hne⟩
  · obtain ⟨d3, d4, h3, h4, hr, hd⟩ := get_reading_of_touched cfg e fuel _ r d' ht h
    have hf := trailing_check_frame e
      (fifo_check cfg e (touched_status cfg e { d with hw := hw }).1
        (touched_status cfg e { d with hw := hw }).2).1
      { d4 with z := coord_t (pressure d4.z) }
    rw [← hd] at hf
    have htouched : d'.touched = (touched_status cfg e { d with hw := hw }).2.touched := by
      rw [hf.2.2.2]
      show d4.touched = _
      rw [(rescale_frame cfg e d3 d4 h4).2.1, drain_touched e _ fuel _ _ h3]
      exact (fifo_check_frame cfg e _ _).2.2.2
    refine ⟨fun h0 => absurd (htouched ▸ h0) ht, fun _ => ?_⟩
    rw [hr]
    exact ⟨hf.1, hf.2.1, hf.2.2.1⟩

/-- A sequence of calls is a chain of single calls. -/
theorem get_readings_chain (cfg : Config) (e : Env σ) (fuel : Nat) :
    ∀ (hws : List σ) (d : Driver σ) (r0 : MouseReading) (out : List (MouseReading × Driver σ)),
      get_readings cfg e fuel hws d = Except.ok out →
      List.Chain call_keeps_or_stores (r0, d) out ∧ out.length = hws.length := by
  intro hws
  induction hws with
  | nil =>
    intro d r0 out h
    simp only [get_readings] at h
    injection h with h
    subst h
    exact ⟨List.Chain.nil, rfl⟩
  | cons hw rest ih =>
    intro d r0 out h
    simp only [get_readings] at h
    split at h
    · exact absurd h (by simp)
    · rename_i p hp
      split at h
      · exact absurd h (by simp)
      · rename_i out1 hout
        injection h with h
        subst h
        have hrec := ih p.2 p.1 out1 hout
        refine ⟨List.Chain.cons (get_reading_keeps_or_stores cfg e fuel d r0 hw p hp) ?_, ?_⟩
        · exact hrec.1
        · simp [hrec.2]

/-- Along a chain, a run of untouched calls returns the reading stored before the run. -/
theorem chain_untouched_run (a : MouseReading × Driver σ) :
    ∀ (mid : List (MouseReading × Driver σ)) (q : MouseReading × Driver σ)
      (post : List (MouseReading × Driver σ)),
      List.Chain call_keeps_or_stores a (mid ++ q :: post) →
      (∀ p ∈ mid, p.2.touched = 0) → q.2.touched = 0 →
      q.1.x = a.2.x ∧ q.1.y = a.2.y ∧ q.1.z = 0 ∧ q.1.buttons = 0 := by
  intro mid
  induction mid generalizing a with
  | nil =>
    intro q post hc _ hq
    rw [List.nil_append, List.chain_cons] at hc
    exact (hc.1.1 hq).1
  | cons m mid ih =>
    intro q post hc hmid hq
    rw [List.cons_append, List.chain_cons] at hc
    have hm := (hc.1.1 (hmid m (List.mem_cons_self _ _))).2
    have hrec := ih m q post hc.2 (fun p hp => hmid p (List.mem_cons_of_mem _ hp)) hq
    exact ⟨hrec.1.trans hm.1, hrec.2.1.trans hm.2.1, hrec.2.2⟩

/-- C2: over every sequence of calls of `ginput_lld_mouse_get_reading` that return (the `i`-th
call finding the hardware in any state `hws[i]`), each untouched call returns exactly the
`(x, y)` that the most recent touched call returned, with `z = 0` and `buttons = 0`;
after every touched call the stored `(x, y, z)` is the sample just returned, and an untouched
call keeps the stored `(x, y, z)` of the call before it.  A call is touched when the latch is
set after it. -/
theorem untouched_follows_last_touched (cfg : Config) (e : Env σ) (fuel : Nat)
    (hws : List σ) (d : Driver σ) (out : List (MouseReading × Driver σ))
    (h : get_readings cfg e fuel hws d = Except.ok out) :
    out.length = hws.length ∧
    (∀ (pre mid post : List (MouseReading × Driver σ)) (pj pi : MouseReading × Driver σ),
      out = pre ++ (pj :: (mid ++ (pi :: post))) →
      pj.2.touched ≠ 0 → (∀ p ∈ mid, p.2.touched = 0) → pi.2.touched = 0 →
      pi.1.x = pj.1.x ∧ pi.1.y = pj.1.y ∧ pi.1.z = 0 ∧ pi.1.buttons = 0) ∧
    (∀ (pre post : List (MouseReading × Driver σ)) (p : MouseReading × Driver σ),
      out = pre ++ (p :: post) → p.2.touched ≠ 0 →
      p.2.x = p.1.x ∧ p.2.y = p.1.y ∧ p.2.z = p.1.z) ∧
    (∀ (pre post : List (MouseReading × Driver σ)) (p q : MouseReading × Driver σ),
      out = pre ++ (p :: q :: post) → q.2.touched = 0 →
      q.2.x = p.2.x ∧ q.2.y = p.2.y ∧ q.2.z = p.2.z) ∧
    (∀ (post : List (MouseReading × Driver σ)) (q : MouseReading × Driver σ),
      out = q :: post → q.2.touched = 0 →
      (q.1.x = d.x ∧ q.1.y = d.y ∧ q.1.z = 0 ∧ q.1.buttons = 0) ∧
      (q.2.x = d.x ∧ q.2.y = d.y ∧ q.2.z = d.z)) := by
  have hc := get_readings_chain cfg e fuel hws d ⟨0, 0, 0, 0⟩ out h
  have hstore : ∀ (pre post : List (MouseReading × Driver σ)) (p : MouseReading × Driver σ),
      out = pre ++ (p :: post) → p.2.touched ≠ 0 →
      p.2.x = p.1.x ∧ p.2.y = p.1.y ∧ p.2.z = p.1.z := by
    intro pre post p hout hp
    have h1 := hc.1
    rw [hout, List.chain_split] at h1
    have h2 := h1.1
    cases pre using List.reverseRecOn with
    | nil =>
      rw [List.nil_append, List.chain_singleton] at h2
      exact h2.2 hp
    | append_singleton pre a _ =>
      rw [List.append_assoc, List.singleton_append, List.chain_append_cons_cons] at h2
      exact h2.2.1.2 hp
  refine ⟨hc.2, ?_, hstore, ?_, ?_⟩
  · intro pre mid post pj pi hout hj hmid hi
    have h1 := hc.1
    rw [hout, List.chain_split] at h1
    have hrun := chain_untouched_run pj mid pi post h1.2 hmid hi
    have hs := hstore pre (mid ++ (pi :: post)) pj hout hj
    exact ⟨hrun.1.trans hs.1, hrun.2.1.trans hs.2.1, hrun.2.2⟩
  · intro pre post p q hout hq
    have h1 := hc.1
    rw [hout, List.chain_append_cons_cons] at h1
    exact (h1.2.1.1 hq).2
  · intro post q hout hq
    have h1 := hc.1
    rw [hout, List.chain_cons] at h1
    exact h1.1.1 hq

/-- Witness of C2: polling mode, a touch at raw `(2048, 1024, 128)`, then two calls with the
panel released, then a touch at raw `(1024, 2048, 255)` and a release. -/
theorem untouched_follows_last_touched_witness :
    get_readings cfg_poll (simEnv 320 240) 2 press_release_twice
        (driver_at 0 0 0 0 ⟨false, 0, 0, []⟩) =
      Except.ok (result_or [] (get_readings cfg_poll (simEnv 320 240) 2 press_release_twice
        (driver_at 0 0 0 0 ⟨false, 0, 0, []⟩))) ∧
    (result_or [] (get_readings cfg_poll (simEnv 320 240) 2 press_release_twice
        (driver_at 0 0 0 0 ⟨false, 0, 0, []⟩))).map (fun p => (p.1, p.2.touched)) =
      [(⟨150, 60, 51, 1⟩, 0x80), (⟨150, 60, 0, 0⟩, 0), (⟨150, 60, 0, 0⟩, 0),
       (⟨235, 120, 100, 1⟩, 0x80), (⟨235, 120, 0, 0⟩, 0)] ∧
    (result_or [] (get_readings cfg_poll (simEnv 320 240) 2 press_release_twice
        (driver_at 0 0 0 0 ⟨false, 0, 0, []⟩))).length = press_release_twice.length :=
  ⟨rfl, rfl, (untouched_follows_last_touched cfg_poll (simEnv 320 240) 2 press_release_twice
    (driver_at 0 0 0 0 ⟨false, 0, 0, []⟩) _ rfl).1⟩

theorem drain_succ_flush (e : Env σ) (n : Nat) (d : Driver σ) :
    drain e true (n + 1) d =
      if (read_cycle e d).1 &&& 0x20 = 0 then drain e true n (read_cycle e d).2
      else Except.ok (read_cycle e d).2 := by
  rw [drain]
  simp only [if_true, read_cycle]

theorem drain_succ_once (e : Env σ) (n : Nat) (d : Driver σ) :
    drain e false (n + 1) d = Except.ok (read_xyz e d) := by
  rw [drain]
  simp

/-- One read cycle on the simulated chip takes the oldest entry out of the FIFO. -/
theorem sim_read_cycle (W H : Int) (d : Driver SimChip) (s : Nat × Nat × Nat)
    (rest : List (Nat × Nat × Nat)) (hf : d.hw.fifo = s :: rest) :
    (read_cycle (simEnv W H) d).1 = (if rest.isEmpty then 0x20 else d.hw.fifo_flags) ∧
    (read_cycle (simEnv W H) d).2.hw.fifo = rest ∧
    (read_cycle (simEnv W H) d).2.hw.fifo_flags = d.hw.fifo_flags ∧
    (read_cycle (simEnv W H) d).2.x = coord_t s.1 ∧
    (read_cycle (simEnv W H) d).2.y = coord_t s.2.1 ∧
    (read_cycle (simEnv W H) d).2.z = coord_t s.2.2 ∧
    (read_cycle (simEnv W H) d).2.touched = d.touched := by
  simp [read_cycle, read_xyz, read_reg, simEnv, hf]

/-- On the simulated chip a flushing drain loop ends on the newest FIFO entry `t`, after one
pass per entry. -/
theorem sim_drain_newest (W H : Int) (t : Nat × Nat × Nat) :
    ∀ (stale : List (Nat × Nat × Nat)) (d : Driver SimChip),
      d.hw.fifo = stale ++ [t] → d.hw.fifo_flags &&& 0x20 = 0 →
      ∃ d3 : Driver SimChip, drain (simEnv W H) true (stale.length + 1) d = Except.ok d3 ∧
        d3.x = coord_t t.1 ∧ d3.y = coord_t t.2.1 ∧ d3.z = coord_t t.2.2 ∧
        d3.touched = d.touched := by
  intro stale
  induction stale with
  | nil =>
    intro d hf _
    have hc := sim_read_cycle W H d t [] hf
    refine ⟨(read_cycle (simEnv W H) d).2, ?_, hc.2.2.2.1, hc.2.2.2.2.1, hc.2.2.2.2.2⟩
    rw [List.length_nil, drain_succ_flush, hc.1]
    simp
  | cons s stale ih =>
    intro d hf hflags
    have hc := sim_read_cycle W H d s (stale ++ [t]) hf
    have hbusy : (read_cycle (simEnv W H) d).1 &&& 0x20 = 0 := by
      rw [hc.1]
      simp [hflags]
    obtain ⟨d3, h3, hx, hy, hz, ht⟩ := ih (read_cycle (simEnv W H) d).2 hc.2.1
      (by rw [hc.2.2.1]; exact hflags)
    refine ⟨d3, ?_, hx, hy, hz, ht.trans hc.2.2.2.2.2.2⟩
    rw [List.length_cons, drain_succ_flush, if_pos hbusy, h3]

/-- In interrupt-pin mode with the pin asserted the status step clears the interrupts, reads the
touched bit and asks for a flush. -/
theorem touched_status_irq (cfg : Config) (e : Env σ) (d : Driver σ)
    (hcfg : cfg.STMP811_NO_GPIO_IRQPIN = false) (hpin : (e.getpin_irq d.hw).1 = true) :
    touched_status cfg e d =
      (true, { (read_reg e STMPE811_REG_TSC_CTRL 1
                  (write_reg e STMPE811_REG_INT_STA 1 0xFF (getpin_irq e d).2)).2 with
               touched := uint8_t (read_reg e STMPE811_REG_TSC_CTRL 1
                  (write_reg e STMPE811_REG_INT_STA 1 0xFF (getpin_irq e d).2)).1 &&& 0x80 }) := by
  simp [touched_status, hcfg, getpin_irq, hpin]

theorem fifo_check_of_true (cfg : Config) (e : Env σ) (d : Driver σ) :
    fifo_check cfg e true d = (true, d) := by
  simp [fifo_check]

/-- C3: end to end in interrupt-pin mode, calibration disabled, on a 320x240 display.  After
`ginput_lld_mouse_init`, with the IRQ pin asserted, the touched bit of `TSC_CTRL` reading 1 and
a FIFO whose newest entry is raw `(2048, 1024, 128)` behind any stale entries,
`ginput_lld_mouse_get_reading` returns `x = 150`, `y = 60`, `z = 51` and
`buttons = GINPUT_TOUCH_PRESSED`, the values of `320 - 2048/(4096/320)`, `1024/(4096/240)` and
`((128 & 0xFF)*100 >> 8) + 1`. -/
theorem irq_end_to_end (slow : Bool) (d0 : Driver SimChip) (ctrl flags : Nat)
    (stale : List (Nat × Nat × Nat))
    (hctrl : uint8_t ctrl &&& 0x80 ≠ 0) (hflags : flags &&& 0x20 = 0) :
    reading_of (ginput_lld_mouse_get_reading ⟨false, slow, false⟩ (simEnv 320 240)
        (stale.length + 1)
        { ginput_lld_mouse_init ⟨false, slow, false⟩ (simEnv 320 240) d0 with
          hw := ⟨true, ctrl, flags, stale ++ [(2048, 1024, 128)]⟩ }) =
      Except.ok { x := 150, y := 60, z := 51, buttons := GINPUT_TOUCH_PRESSED } ∧
    (150 : Int) = 320 - 2048 / (4096 / 320) ∧ (60 : Int) = 1024 / (4096 / 240) ∧
    (51 : Nat) = (((128 &&& 0xFF) * 100) >>> 8) + 1 := by
  refine ⟨?_, by decide, by decide, by decide⟩
  generalize hd : ({ ginput_lld_mouse_init ⟨false, slow, false⟩ (simEnv 320 240) d0 with
          hw := ⟨true, ctrl, flags, stale ++ [(2048, 1024, 128)]⟩ } : Driver SimChip) = d
  have hhw : d.hw = ⟨true, ctrl, flags, stale ++ [(2048, 1024, 128)]⟩ := by rw [← hd]
  have hs := touched_status_irq ⟨false, slow, false⟩ (simEnv 320 240) d rfl
    (by rw [hhw]; rfl)
  have ht : (touched_status ⟨false, slow, false⟩ (simEnv 320 240) d).2.touched ≠ 0 := by
    rw [hs]
    simpa [read_reg, write_reg, getpin_irq, simEnv, hhw] using hctrl
  obtain ⟨d3, h3, hx, hy, hz, -⟩ := sim_drain_newest 320 240 (2048, 1024, 128) stale
    (touched_status ⟨false, slow, false⟩ (simEnv 320 240) d).2
    (by rw [hs]; simp [read_reg, write_reg, getpin_irq, simEnv, hhw])
    (by rw [hs]; simpa [read_reg, write_reg, getpin_irq, simEnv, hhw] using hflags)
  have hfc : fifo_check ⟨false, slow, false⟩ (simEnv 320 240)
      (touched_status ⟨false, slow, false⟩ (simEnv 320 240) d).1
      (touched_status ⟨false, slow, false⟩ (simEnv 320 240) d).2
      = (true, (touched_status ⟨false, slow, false⟩ (simEnv 320 240) d).2) := by
    have h1 : (touched_status ⟨false, slow, false⟩ (simEnv 320 240) d).1 = true := by rw [hs]
    rw [h1, fifo_check_of_true]
  have hx3 : d3.x = 2048 := by rw [hx]; decide
  have hy3 : d3.y = 1024 := by rw [hy]; decide
  have hz3 : d3.z = 128 := by rw [hz]; decide
  have hw : rescale_x (coord_t ((simEnv 320 240).gdispGetWidth d3.hw)) d3.x = Except.ok 150 := by
    rw [hx3]; rfl
  have hh : rescale_y (coord_t ((simEnv 320 240).gdispGetHeight d3.hw)) d3.y = Except.ok 60 := by
    rw [hy3]; rfl
  have hrs : rescale ⟨false, slow, false⟩ (simEnv 320 240) d3
      = Except.ok { d3 with x := 150, y := 60 } := by
    simp only [rescale, hw, hh]
    rfl
  have hp : coord_t (pressure 128) = 51 := by decide
  simp only [ginput_lld_mouse_get_reading, if_neg ht, hfc, h3, hrs, reading_of, hz3, hp]

/-- Witness of C3: one stale entry ahead of the newest one, `TSC_CTRL = 0x81`. -/
theorem irq_end_to_end_witness :
    (uint8_t 0x81 &&& 0x80 ≠ 0 ∧ 0 &&& 0x20 = 0) ∧
    reading_of (ginput_lld_mouse_get_reading ⟨false, false, false⟩ (simEnv 320 240)
        ([(1, 2, 3)].length + 1)
        { ginput_lld_mouse_init ⟨false, false, false⟩ (simEnv 320 240)
            (driver_at 0 0 0 0 ⟨false, 0, 0, []⟩) with
          hw := ⟨true, 0x81, 0, [(1, 2, 3)] ++ [(2048, 1024, 128)]⟩ }) =
      Except.ok { x := 150, y := 60, z := 51, buttons := GINPUT_TOUCH_PRESSED } :=
  ⟨⟨by decide, by decide⟩,
    (irq_end_to_end false (driver_at 0 0 0 0 ⟨false, 0, 0, []⟩) 0x81 0 [(1, 2, 3)]
      (by decide) (by decide)).1⟩

/-- C6 as stated fails: on a 320 pixel wide display the raw value 4095 rescales to `-21`, below
0 (seen on the rescale of line 164 and on the whole call), and a width above 4096 has no result
at all, the divisor `4096/W` being 0. -/
theorem rescale_x_out_of_range :
    rescale_x 320 4095 = Except.ok (-21) ∧ ¬ (0 ≤ (-21 : Int)) ∧
    reading_of (ginput_lld_mouse_get_reading cfg_irq (simEnv 320 240) 1
        (driver_at 0 0 0 0 ⟨true, 0x81, 0, [(4095, 0, 0)]⟩)) =
      Except.ok { x := -21, y := 0, z := 1, buttons := 1 } ∧
    rescale_x 5000 0 = Except.error Fault.division_by_zero :=
  ⟨rfl, by decide, rfl, rfl⟩

/-- C6, amended: in calibration-disabled mode, for a raw ADC value `rx` in `[0, 4095]` and a
display width `W` in `[1, 4096]`, the rescale of line 164 returns `x = W - rx / (4096 / W)`
(integer division) with `x ≤ W`; `0 ≤ x` holds exactly when `rx < (W + 1) * (4096 / W)`, in
particular whenever `W` divides 4096. -/
theorem rescale_x_bounds (rx W : Int) (h0 : 0 ≤ rx) (h1 : rx ≤ 4095) (hW : 0 < W)
    (hW2 : W ≤ 4096) :
    rescale_x W rx = Except.ok (W - rx / (4096 / W)) ∧
    W - rx / (4096 / W) ≤ W ∧
    (0 ≤ W - rx / (4096 / W) ↔ rx < (W + 1) * (4096 / W)) ∧
    ((4096 : Int) % W = 0 → 0 ≤ W - rx / (4096 / W)) := by
  have hq : 0 < (4096 : Int) / W := by
    have : 1 ≤ (4096 : Int) / W := Int.le_ediv_of_mul_le hW (by omega)
    omega
  have hqle : (4096 : Int) / W ≤ 4096 := by
    have : (4096 : Int) / W * W ≤ 4096 := Int.ediv_mul_le _ (by omega)
    nlinarith
  have hdiv0 : 0 ≤ rx / (4096 / W) := Int.ediv_nonneg h0 (le_of_lt hq)
  have hdivle : rx / (4096 / W) ≤ 4095 := by
    have : rx / (4096 / W) ≤ rx := Int.ediv_le_self _ h0
    omega
  have hiff : 0 ≤ W - rx / (4096 / W) ↔ rx < (W + 1) * (4096 / W) := by
    rw [← Int.ediv_lt_iff_lt_mul hq]
    omega
  refine ⟨?_, by omega, hiff, ?_⟩
  · have ht1 : Int.tdiv 4096 W = 4096 / W := Int.tdiv_eq_ediv (by norm_num) (le_of_lt hW)
    have ht2 : Int.tdiv rx (4096 / W) = rx / (4096 / W) := Int.tdiv_eq_ediv h0 (le_of_lt hq)
    unfold rescale_x
    rw [ht1, ht2, if_neg (by omega), coord_t_id _ (by omega) (by omega)]
  · intro hdvd
    rw [hiff]
    have hmul : W * ((4096 : Int) / W) = 4096 := Int.mul_ediv_cancel' (Int.dvd_of_emod_eq_zero hdvd)
    nlinarith

/-- Witness of C6, amended: width 320 and raw value 2048, inside the range where `0 ≤ x`. -/
theorem rescale_x_bounds_witness :
    ((0 : Int) ≤ 2048 ∧ (2048 : Int) ≤ 4095 ∧ (0 : Int) < 320 ∧ (320 : Int) ≤ 4096) ∧
    rescale_x 320 2048 = Except.ok (320 - 2048 / (4096 / 320)) ∧
    (320 : Int) - 2048 / (4096 / 320) = 150 :=
  ⟨⟨by decide, by decide, by decide, by decide⟩,
    (rescale_x_bounds 2048 320 (by decide) (by decide) (by decide) (by decide)).1, by decide⟩

/-! ### Traces -/

theorem last_read_append (reg : Reg) (t u : List Effect) :
    last_read reg (t ++ u) = u.foldl (note_read reg) (last_read reg t) := by
  simp [last_read, List.foldl_append]

theorem read_xyz_holds_last_raw (e : Env σ) (d : Driver σ) : holds_last_raw (read_xyz e d) := by
  refine ⟨(e.read_reg STMPE811_REG_TSC_DATA_X 2 d.hw).1, _, _, ?_, ?_, ?_, rfl, rfl, rfl⟩
  · simp [read_xyz, read_reg, last_read_append, note_read]
  · simp [read_xyz, read_reg, last_read_append, note_read]
  · simp [read_xyz, read_reg, last_read_append, note_read]

theorem foldl_note_read_skip (reg : Reg) :
    ∀ u : List Effect, (∀ ev ∈ u, ∀ acc, note_read reg acc ev = acc) →
      ∀ acc, u.foldl (note_read reg) acc = acc := by
  intro u
  induction u with
  | nil => intro _ acc; rfl
  | cons ev u ih =>
    intro hall acc
    rw [List.foldl_cons, hall ev (List.mem_cons_self _ _)]
    exact ih (fun ev2 h2 => hall ev2 (List.mem_cons_of_mem _ h2)) acc

/-- Appending effects that read neither X, Y nor Z keeps `holds_last_raw`. -/
theorem holds_last_raw_of_append (d d2 : Driver σ) (u : List Effect)
    (hx : d2.x = d.x) (hy : d2.y = d.y) (hz : d2.z = d.z) (ht : d2.trace = d.trace ++ u)
    (hu : ∀ ev ∈ u, ∀ acc, note_read STMPE811_REG_TSC_DATA_X acc ev = acc ∧
      note_read STMPE811_REG_TSC_DATA_Y acc ev = acc ∧
      note_read STMPE811_REG_TSC_DATA_Z acc ev = acc)
    (h : holds_last_raw d) : holds_last_raw d2 := by
  have hfold : ∀ (reg : Reg), (∀ ev ∈ u, ∀ acc, note_read reg acc ev = acc) →
      ∀ acc, u.foldl (note_read reg) acc = acc := fun reg => foldl_note_read_skip reg u
  obtain ⟨vx, vy, vz, h1, h2, h3, h4, h5, h6⟩ := h
  refine ⟨vx, vy, vz, ?_, ?_, ?_, hx.trans h4, hy.trans h5, hz.trans h6⟩
  · rw [ht, last_read_append, hfold _ (fun ev hev acc => (hu ev hev acc).1), h1]
  · rw [ht, last_read_append, hfold _ (fun ev hev acc => (hu ev hev acc).2.1), h2]
  · rw [ht, last_read_append, hfold _ (fun ev hev acc => (hu ev hev acc).2.2), h3]

theorem read_cycle_holds_last_raw (e : Env σ) (d : Driver σ) :
    holds_last_raw (read_cycle e d).2 := by
  refine holds_last_raw_of_append (read_xyz e d) _
    [Effect.read_reg STMPE811_REG_FIFO_STA 1 (read_cycle e d).1] rfl rfl rfl rfl ?_
    (read_xyz_holds_last_raw e d)
  intro ev hev acc
  rw [List.mem_singleton] at hev
  subst hev
  simp [note_read]

theorem drain_holds_last_raw (e : Env σ) (c : Bool) (fuel : Nat) :
    ∀ d d3 : Driver σ, drain e c fuel d = Except.ok d3 → holds_last_raw d3 := by
  induction fuel with
  | zero => intro d d3 h; simp [drain] at h
  | succ n ih =>
    intro d d3 h
    cases c with
    | true =>
      rw [drain_succ_flush] at h
      split_ifs at h
      · exact ih _ _ h
      · injection h with h; rw [← h]; exact read_cycle_holds_last_raw e d
    | false =>
      rw [drain_succ_once] at h
      injection h with h; rw [← h]; exact read_xyz_holds_last_raw e d

/-- The trailing check appends at most a read of `FIFO_STA` and a wakeup. -/
theorem trailing_check_trace (e : Env σ) (c : Bool) (d : Driver σ) :
    ∃ u : List Effect, (trailing_check e c d).trace = d.trace ++ u ∧
      ∀ ev ∈ u, ev = Effect.ginputMouseWakeup ∨
        ∃ v, ev = Effect.read_reg STMPE811_REG_FIFO_STA 1 v := by
  simp only [trailing_check]
  split_ifs
  · exact ⟨[], by simp, by simp⟩
  · refine ⟨[Effect.read_reg STMPE811_REG_FIFO_STA 1 (e.read_reg STMPE811_REG_FIFO_STA 1 d.hw).1,
      Effect.ginputMouseWakeup], by simp [ginputMouseWakeup, read_reg], ?_⟩
    intro ev hev
    simp only [List.mem_cons, List.mem_singleton, List.not_mem_nil, or_false] at hev
    rcases hev with h | h
    · exact Or.inr ⟨_, h⟩
    · exact Or.inl h
  · refine ⟨[Effect.read_reg STMPE811_REG_FIFO_STA 1 (e.read_reg STMPE811_REG_FIFO_STA 1 d.hw).1],
      by simp [read_reg], ?_⟩
    intro ev hev
    rw [List.mem_singleton] at hev
    exact Or.inr ⟨_, hev⟩

/-- The display size plays no part before the rescale. -/
theorem drain_display_irrelevant (e : Env σ) (w h : σ → Int) (c : Bool) (fuel : Nat) :
    ∀ d : Driver σ,
      drain { e with gdispGetWidth := w, gdispGetHeight := h } c fuel d = drain e c fuel d := by
  induction fuel with
  | zero => intro d; simp [drain]
  | succ n ih =>
    intro d
    simp only [drain]
    have hx : read_xyz { e with gdispGetWidth := w, gdispGetHeight := h } d = read_xyz e d := by
      simp [read_xyz, read_reg]
    rw [hx]
    split_ifs with hc hs hs2 hs2
    · simpa [read_reg] using ih (read_reg e STMPE811_REG_FIFO_STA 1 (read_xyz e d)).2
    · exact absurd hs (by simpa [read_reg] using hs2)
    · exact absurd hs2 (by simpa [read_reg] using hs)
    · simp [read_reg]
    · rfl

theorem rescale_of_calibration (cfg : Config) (e : Env σ) (d : Driver σ)
    (hcal : cfg.GINPUT_MOUSE_NEED_CALIBRATION = true) : rescale cfg e d = Except.ok d := by
  simp [rescale, hcal]

/-- C7: with `GINPUT_MOUSE_NEED_CALIBRATION` set, a touched call that returns gives as `x` and
`y` the last values read from the X and Y data registers, cast to `coord_t` and otherwise
unchanged (the cast is the identity below `2^15`, so on every 12-bit ADC value); and the whole
call is the same whatever `gdispGetWidth` and `gdispGetHeight` return. -/
theorem calibration_passes_raw (cfg : Config) (e : Env σ) (fuel : Nat) (d : Driver σ)
    (r : MouseReading) (d' : Driver σ)
    (hcal : cfg.GINPUT_MOUSE_NEED_CALIBRATION = true)
    (ht : (touched_status cfg e d).2.touched ≠ 0)
    (h : ginput_lld_mouse_get_reading cfg e fuel d = Except.ok (r, d')) :
    (∃ vx vy : Nat,
      last_read STMPE811_REG_TSC_DATA_X d'.trace = some vx ∧
      last_read STMPE811_REG_TSC_DATA_Y d'.trace = some vy ∧
      r.x = coord_t vx ∧ r.y = coord_t vy ∧
      (vx < 32768 → r.x = vx) ∧ (vy < 32768 → r.y = vy)) ∧
    (∀ w h : σ → Int,
      ginput_lld_mouse_get_reading cfg { e with gdispGetWidth := w, gdispGetHeight := h } fuel d =
        ginput_lld_mouse_get_reading cfg e fuel d) := by
  constructor
  · obtain ⟨d3, d4, h3, h4, hr, hd⟩ := get_reading_of_touched cfg e fuel d r d' ht h
    rw [rescale_of_calibration cfg e d3 hcal] at h4
    injection h4 with h4
    subst h4
    obtain ⟨vx, vy, vz, hx, hy, -, hdx, hdy, -⟩ := drain_holds_last_raw e _ fuel _ _ h3
    obtain ⟨u, hu, hev⟩ := trailing_check_trace e
      (fifo_check cfg e (touched_status cfg e d).1 (touched_status cfg e d).2).1
      { d3 with z := coord_t (pressure d3.z) }
    have hskip : ∀ reg : Reg, reg ≠ STMPE811_REG_FIFO_STA →
        last_read reg d'.trace = last_read reg d3.trace := by
      intro reg hreg
      rw [hd, hu, last_read_append]
      apply foldl_note_read_skip
      intro ev hmem acc
      rcases hev ev hmem with h1 | ⟨v, h1⟩
      · rw [h1]; rfl
      · rw [h1]
        simp only [note_read]
        rw [if_neg (fun hne => hreg hne.symm)]
    have hrx : r.x = coord_t vx := by rw [hr]; exact hdx
    have hry : r.y = coord_t vy := by rw [hr]; exact hdy
    refine ⟨vx, vy, ?_, ?_, hrx, hry, ?_, ?_⟩
    · rw [hskip _ (by decide)]; exact hx
    · rw [hskip _ (by decide)]; exact hy
    · intro hlt; rw [hrx]; exact coord_t_id _ (by omega) (by omega)
    · intro hlt; rw [hry]; exact coord_t_id _ (by omega) (by omega)
  · intro w hh
    have hts : touched_status cfg { e with gdispGetWidth := w, gdispGetHeight := hh } d
        = touched_status cfg e d := by
      simp [touched_status, read_reg, write_reg, getpin_irq]
    have hfc : ∀ (c : Bool) (d1 : Driver σ),
        fifo_check cfg { e with gdispGetWidth := w, gdispGetHeight := hh } c d1
          = fifo_check cfg e c d1 := by
      intro c d1
      simp [fifo_check, read_reg]
    have htc : ∀ (c : Bool) (d1 : Driver σ),
        trailing_check { e with gdispGetWidth := w, gdispGetHeight := hh } c d1
          = trailing_check e c d1 := by
      intro c d1
      simp [trailing_check, read_reg, ginputMouseWakeup]
    simp only [ginput_lld_mouse_get_reading, hts, hfc, htc, drain_display_irrelevant,
      rescale_of_calibration _ _ _ hcal]

/-- Witness of C7: a touch at raw `(2048, 1024, 128)` comes back as `x = 2048`, `y = 1024`. -/
theorem calibration_passes_raw_witness :
    reading_of (ginput_lld_mouse_get_reading cfg_cal (simEnv 320 240) 1
        (driver_at 0 0 0 0 ⟨true, 0x81, 0, [(2048, 1024, 128)]⟩)) =
      Except.ok { x := 2048, y := 1024, z := 51, buttons := 1 } ∧
    (∀ w h : SimChip → Int,
      ginput_lld_mouse_get_reading cfg_cal
          { simEnv 320 240 with gdispGetWidth := w, gdispGetHeight := h } 1
          (driver_at 0 0 0 0 ⟨true, 0x81, 0, [(2048, 1024, 128)]⟩) =
        ginput_lld_mouse_get_reading cfg_cal (simEnv 320 240) 1
          (driver_at 0 0 0 0 ⟨true, 0x81, 0, [(2048, 1024, 128)]⟩)) :=
  ⟨rfl, (calibration_passes_raw cfg_cal (simEnv 320 240) 1
    (driver_at 0 0 0 0 ⟨true, 0x81, 0, [(2048, 1024, 128)]⟩) _ _ rfl (by decide) rfl).2⟩

/-! ### Wakeups -/

theorem wakeups_append (t u : List Effect) : wakeups (t ++ u) = wakeups t + wakeups u := by
  simp [wakeups, List.count_append]

theorem touched_status_wakeups (cfg : Config) (e : Env σ) (d : Driver σ) :
    wakeups (touched_status cfg e d).2.trace = wakeups d.trace := by
  simp only [touched_status]
  split_ifs <;> simp [wakeups, read_reg, write_reg, getpin_irq, List.count_append]

theorem fifo_check_wakeups (cfg : Config) (e : Env σ) (c : Bool) (d : Driver σ) :
    wakeups (fifo_check cfg e c d).2.trace = wakeups d.trace := by
  simp only [fifo_check]
  split_ifs <;> simp [wakeups, read_reg, List.count_append]

theorem read_xyz_wakeups (e : Env σ) (d : Driver σ) :
    wakeups (read_xyz e d).trace = wakeups d.trace := by
  simp [wakeups, read_xyz, read_reg, List.count_append]

theorem read_cycle_wakeups (e : Env σ) (d : Driver σ) :
    wakeups (read_cycle e d).2.trace = wakeups d.trace := by
  rw [← read_xyz_wakeups e d]
  simp [wakeups, read_cycle, read_reg, List.count_append]

theorem drain_wakeups (e : Env σ) (c : Bool) (fuel : Nat) :
    ∀ d d3 : Driver σ, drain e c fuel d = Except.ok d3 → wakeups d3.trace = wakeups d.trace := by
  induction fuel with
  | zero => intro d d3 h; simp [drain] at h
  | succ n ih =>
    intro d d3 h
    cases c with
    | true =>
      rw [drain_succ_flush] at h
      split_ifs at h
      · exact (ih _ _ h).trans (read_cycle_wakeups e d)
      · injection h with h; rw [← h]; exact read_cycle_wakeups e d
    | false =>
      rw [drain_succ_once] at h
      injection h with h; rw [← h]; exact read_xyz_wakeups e d

/-- Without a flush the trailing check reads `FIFO_STA` once, last in the trace but for the
wakeup, and wakes the mouse service exactly when the empty bit is clear. -/
theorem trailing_check_no_flush (e : Env σ) (d : Driver σ) :
    ∃ st : Nat, last_read STMPE811_REG_FIFO_STA (trailing_check e false d).trace = some st ∧
      wakeups (trailing_check e false d).trace =
        wakeups d.trace + (if st &&& 0x20 = 0 then 1 else 0) := by
  have heq : trailing_check e false d =
      if (read_reg e STMPE811_REG_FIFO_STA 1 d).1 &&& 0x20 = 0 then
        ginputMouseWakeup e (read_reg e STMPE811_REG_FIFO_STA 1 d).2
      else (read_reg e STMPE811_REG_FIFO_STA 1 d).2 := by
    simp [trailing_check]
  refine ⟨(e.read_reg STMPE811_REG_FIFO_STA 1 d.hw).1, ?_, ?_⟩
  · rw [heq]
    split_ifs <;>
      simp [read_reg, ginputMouseWakeup, last_read_append, note_read]
  · rw [heq]
    split_ifs with h1 <;>
      simp_all [wakeups, read_reg, ginputMouseWakeup, List.count_append]

/-- Without a flush the trailing check reads `FIFO_STA` on the hardware as it finds it, and
appends that read, followed by the wakeup exactly when the value read has the empty bit
clear. -/
theorem trailing_check_no_flush_trace (e : Env σ) (d : Driver σ) :
    (trailing_check e false d).trace = d.trace ++
      (Effect.read_reg STMPE811_REG_FIFO_STA 1 (e.read_reg STMPE811_REG_FIFO_STA 1 d.hw).1 ::
        (if (e.read_reg STMPE811_REG_FIFO_STA 1 d.hw).1 &&& 0x20 = 0
          then [Effect.ginputMouseWakeup] else [])) := by
  have heq : trailing_check e false d =
      if (read_reg e STMPE811_REG_FIFO_STA 1 d).1 &&& 0x20 = 0 then
        ginputMouseWakeup e (read_reg e STMPE811_REG_FIFO_STA 1 d).2
      else (read_reg e STMPE811_REG_FIFO_STA 1 d).2 := by
    simp [trailing_check]
  rw [heq]
  by_cases hbit : (e.read_reg STMPE811_REG_FIFO_STA 1 d.hw).1 &&& 0x20 = 0
  · simp [hbit, read_reg, ginputMouseWakeup]
  · simp [hbit, read_reg]

/-- The one pass of the loop body appends the reads of X, Y and Z, in this order. -/
theorem read_xyz_trace (e : Env σ) (d : Driver σ) :
    ∃ vx vy vz : Nat, (read_xyz e d).trace = d.trace ++
      [Effect.read_reg STMPE811_REG_TSC_DATA_X 2 vx,
       Effect.read_reg STMPE811_REG_TSC_DATA_Y 2 vy,
       Effect.read_reg STMPE811_REG_TSC_DATA_Z 1 vz] :=
  ⟨(e.read_reg STMPE811_REG_TSC_DATA_X 2 d.hw).1,
    (e.read_reg STMPE811_REG_TSC_DATA_Y 2 (e.read_reg STMPE811_REG_TSC_DATA_X 2 d.hw).2).1,
    (e.read_reg STMPE811_REG_TSC_DATA_Z 1
      (e.read_reg STMPE811_REG_TSC_DATA_Y 2
        (e.read_reg STMPE811_REG_TSC_DATA_X 2 d.hw).2).2).1,
    by simp [read_xyz, read_reg]⟩

/-- A touched call that returns without a flush made the one pass of the loop body and then
the trailing check, on the hardware as the pass left it. -/
theorem get_reading_no_flush_trace (cfg : Config) (e : Env σ) (fuel : Nat) (d : Driver σ)
    (r : MouseReading) (d' : Driver σ)
    (ht : (touched_status cfg e d).2.touched ≠ 0)
    (hc : (loop_entry cfg e d).1 = false)
    (h : ginput_lld_mouse_get_reading cfg e fuel d = Except.ok (r, d')) :
    d'.trace = (read_xyz e (loop_entry cfg e d).2).trace ++
      (Effect.read_reg STMPE811_REG_FIFO_STA 1
          (e.read_reg STMPE811_REG_FIFO_STA 1 (read_xyz e (loop_entry cfg e d).2).hw).1 ::
        (if (e.read_reg STMPE811_REG_FIFO_STA 1
              (read_xyz e (loop_entry cfg e d).2).hw).1 &&& 0x20 = 0
          then [Effect.ginputMouseWakeup] else [])) := by
  have hle : loop_entry cfg e d =
      fifo_check cfg e (touched_status cfg e d).1 (touched_status cfg e d).2 := rfl
  obtain ⟨d3, d4, h3, h4, -, hd⟩ := get_reading_of_touched cfg e fuel d r d' ht h
  rw [← hle, hc] at h3 hd
  have hd3 : d3 = read_xyz e (loop_entry cfg e d).2 := by
    cases fuel with
    | zero =>
      have h0 : drain e false 0 (loop_entry cfg e d).2 = Except.error Fault.out_of_fuel := rfl
      rw [h0] at h3
      exact absurd h3 (by simp)
    | succ f =>
      rw [drain_succ_once] at h3
      simp only [Except.ok.injEq] at h3
      exact h3.symm
  have hf := rescale_frame cfg e d3 d4 h4
  have htr := trailing_check_no_flush_trace e { d4 with z := coord_t (pressure d4.z) }
  rw [← hd] at htr
  have hhw : ({ d4 with z := coord_t (pressure d4.z) } : Driver σ).hw
      = (read_xyz e (loop_entry cfg e d).2).hw := by rw [← hd3]; exact hf.2.2.1
  have htc : ({ d4 with z := coord_t (pressure d4.z) } : Driver σ).trace
      = (read_xyz e (loop_entry cfg e d).2).trace := by rw [← hd3]; exact hf.2.2.2
  rw [hhw, htc] at htr
  exact htr

/-- C8: a call of `ginput_lld_mouse_get_reading` that returns invokes `ginputMouseWakeup`
exactly once if it is touched, `clearfifo` is false at the drain loop (no flush requested, by
the status step or by the check of lines 149-152) and the `FIFO_STA` value read after the
sample has the empty bit `0x20` clear; in every other case it invokes it zero times.  The value
that decides is the one `FIFO_STA` returns on the hardware as the reads of X, Y and Z left it:
without a flush the call ends with those three reads, then this read of `FIFO_STA`, then the
wakeup if there is one.  With a flush nothing follows the drain loop, and an untouched call
ends with the status step. -/
theorem wakeup_iff_trailing_data (cfg : Config) (e : Env σ) (fuel : Nat) (d : Driver σ)
    (r : MouseReading) (d' : Driver σ)
    (h : ginput_lld_mouse_get_reading cfg e fuel d = Except.ok (r, d')) :
    (wakeups d'.trace = wakeups d.trace ∨ wakeups d'.trace = wakeups d.trace + 1) ∧
    (wakeups d'.trace = wakeups d.trace + 1 ↔
      (touched_status cfg e d).2.touched ≠ 0 ∧ (loop_entry cfg e d).1 = false ∧
      ∃ st : Nat, last_read STMPE811_REG_FIFO_STA d'.trace = some st ∧ st &&& 0x20 = 0) ∧
    (wakeups d'.trace = wakeups d.trace + 1 ↔
      (touched_status cfg e d).2.touched ≠ 0 ∧ (loop_entry cfg e d).1 = false ∧
      (e.read_reg STMPE811_REG_FIFO_STA 1
        (read_xyz e (loop_entry cfg e d).2).hw).1 &&& 0x20 = 0) ∧
    ((touched_status cfg e d).2.touched ≠ 0 → (loop_entry cfg e d).1 = false →
      ∃ vx vy vz : Nat,
        (read_xyz e (loop_entry cfg e d).2).trace = (loop_entry cfg e d).2.trace ++
          [Effect.read_reg STMPE811_REG_TSC_DATA_X 2 vx,
           Effect.read_reg STMPE811_REG_TSC_DATA_Y 2 vy,
           Effect.read_reg STMPE811_REG_TSC_DATA_Z 1 vz] ∧
        d'.trace = (read_xyz e (loop_entry cfg e d).2).trace ++
          (Effect.read_reg STMPE811_REG_FIFO_STA 1
              (e.read_reg STMPE811_REG_FIFO_STA 1 (read_xyz e (loop_entry cfg e d).2).hw).1 ::
            (if (e.read_reg STMPE811_REG_FIFO_STA 1
                  (read_xyz e (loop_entry cfg e d).2).hw).1 &&& 0x20 = 0
              then [Effect.ginputMouseWakeup] else []))) ∧
    ((touched_status cfg e d).2.touched ≠ 0 → (loop_entry cfg e d).1 = true →
      ∃ d3 : Driver σ,
        drain e true fuel (loop_entry cfg e d).2 = Except.ok d3 ∧ d'.trace = d3.trace) ∧
    ((touched_status cfg e d).2.touched = 0 → d'.trace = (touched_status cfg e d).2.trace) := by
  have hle : loop_entry cfg e d =
      fifo_check cfg e (touched_status cfg e d).1 (touched_status cfg e d).2 := rfl
  by_cases ht : (touched_status cfg e d).2.touched = 0
  · rw [get_reading_of_untouched cfg e fuel d ht] at h
    injection h with h
    injection h with hr hd
    subst hd
    have hw := touched_status_wakeups cfg e d
    refine ⟨Or.inl hw, ⟨fun h1 => ?_, fun h1 => absurd ht h1.1⟩,
      ⟨fun h1 => ?_, fun h1 => absurd ht h1.1⟩, fun h1 => absurd ht h1,
      fun h1 => absurd ht h1, fun _ => rfl⟩
    · omega
    · omega
  · cases hc : (loop_entry cfg e d).1 with
    | true =>
      obtain ⟨d3, d4, h3, h4, -, hd⟩ := get_reading_of_touched cfg e fuel d r d' ht h
      rw [← hle, hc] at h3 hd
      have hd2 : d'.trace = d3.trace := by
        rw [hd]
        simp only [trailing_check, if_true]
        exact (rescale_frame cfg e d3 d4 h4).2.2.2
      have hw : wakeups d'.trace = wakeups d.trace := by
        rw [hd2, drain_wakeups e true fuel _ _ h3, hle, fifo_check_wakeups,
          touched_status_wakeups]
      refine ⟨Or.inl hw, ⟨fun h1 => ?_, fun h1 => absurd h1.2.1 (by simp)⟩,
        ⟨fun h1 => ?_, fun h1 => absurd h1.2.1 (by simp)⟩,
        fun _ h1 => absurd h1 (by simp), fun _ _ => ⟨d3, h3, hd2⟩, fun h1 => absurd h1 ht⟩
      · omega
      · omega
    | false =>
      have htr := get_reading_no_flush_trace cfg e fuel d r d' ht hc h
      obtain ⟨vx, vy, vz, hxyz⟩ := read_xyz_trace e (loop_entry cfg e d).2
      have hw0 : wakeups (read_xyz e (loop_entry cfg e d).2).trace = wakeups d.trace := by
        rw [read_xyz_wakeups, hle, fifo_check_wakeups, touched_status_wakeups]
      have hlast : last_read STMPE811_REG_FIFO_STA d'.trace =
          some (e.read_reg STMPE811_REG_FIFO_STA 1 (read_xyz e (loop_entry cfg e d).2).hw).1 := by
        rw [htr, last_read_append]
        split_ifs <;> simp [note_read]
      by_cases hbit : (e.read_reg STMPE811_REG_FIFO_STA 1
          (read_xyz e (loop_entry cfg e d).2).hw).1 &&& 0x20 = 0
      · have hw : wakeups d'.trace = wakeups d.trace + 1 := by
          rw [htr, wakeups_append, hw0, if_pos hbit]
          simp [wakeups]
        exact ⟨Or.inr hw, ⟨fun _ => ⟨ht, rfl, _, hlast, hbit⟩, fun _ => hw⟩,
          ⟨fun _ => ⟨ht, rfl, hbit⟩, fun _ => hw⟩,
          fun _ _ => ⟨vx, vy, vz, hxyz, htr⟩, fun _ h1 => absurd h1 (by simp),
          fun h1 => absurd h1 ht⟩
      · have hw : wakeups d'.trace = wakeups d.trace := by
          rw [htr, wakeups_append, hw0, if_neg hbit]
          simp [wakeups]
        refine ⟨Or.inl hw, ⟨fun h1 => ?_, fun h1 => ?_⟩, ⟨fun h1 => ?_, fun h1 => ?_⟩,
          fun _ _ => ⟨vx, vy, vz, hxyz, htr⟩, fun _ h1 => absurd h1 (by simp),
          fun h1 => absurd h1 ht⟩
        · omega
        · obtain ⟨-, -, st2, hst2, hbit2⟩ := h1
          rw [hlast] at hst2
          simp only [Option.some.injEq] at hst2
          exact absurd (hst2 ▸ hbit2) hbit
        · omega
        · exact absurd h1.2.2 hbit

/-- Witness of C8: two steady touched polls without a flush.  Over a FIFO of two entries the
read of `FIFO_STA` after the sample returns 0 (not empty) and the mouse service is woken once;
over a FIFO of one entry it returns `0x20` and there is no wakeup, although the earlier read of
`FIFO_STA` at line 150 returned 0. -/
theorem wakeup_iff_trailing_data_witness :
    trace_of (ginput_lld_mouse_get_reading cfg_poll (simEnv 320 240) 1
        (driver_at 0 0 0 0x80 ⟨false, 0x81, 0, [(1, 2, 3), (4, 5, 6)]⟩)) =
      Except.ok [Effect.read_reg STMPE811_REG_TSC_CTRL 1 0x81,
        Effect.read_reg STMPE811_REG_FIFO_STA 1 0,
        Effect.read_reg STMPE811_REG_TSC_DATA_X 2 1, Effect.read_reg STMPE811_REG_TSC_DATA_Y 2 2,
        Effect.read_reg STMPE811_REG_TSC_DATA_Z 1 3, Effect.read_reg STMPE811_REG_FIFO_STA 1 0,
        Effect.ginputMouseWakeup] ∧
    trace_of (ginput_lld_mouse_get_reading cfg_poll (simEnv 320 240) 1
        (driver_at 0 0 0 0x80 ⟨false, 0x81, 0, [(1, 2, 3)]⟩)) =
      Except.ok [Effect.read_reg STMPE811_REG_TSC_CTRL 1 0x81,
        Effect.read_reg STMPE811_REG_FIFO_STA 1 0,
        Effect.read_reg STMPE811_REG_TSC_DATA_X 2 1, Effect.read_reg STMPE811_REG_TSC_DATA_Y 2 2,
        Effect.read_reg STMPE811_REG_TSC_DATA_Z 1 3,
        Effect.read_reg STMPE811_REG_FIFO_STA 1 0x20] ∧
    wakeups (result_or (⟨0, 0, 0, 0⟩, driver_at 0 0 0 0 ⟨false, 0, 0, []⟩)
        (ginput_lld_mouse_get_reading cfg_poll (simEnv 320 240) 1
          (driver_at 0 0 0 0x80 ⟨false, 0x81, 0, [(1, 2, 3), (4, 5, 6)]⟩))).2.trace =
      wakeups (driver_at 0 0 0 0x80
        (⟨false, 0x81, 0, [(1, 2, 3), (4, 5, 6)]⟩ : SimChip)).trace + 1 ∧
    ¬ (wakeups (result_or (⟨0, 0, 0, 0⟩, driver_at 0 0 0 0 ⟨false, 0, 0, []⟩)
        (ginput_lld_mouse_get_reading cfg_poll (simEnv 320 240) 1
          (driver_at 0 0 0 0x80 ⟨false, 0x81, 0, [(1, 2, 3)]⟩))).2.trace =
      wakeups (driver_at 0 0 0 0x80 (⟨false, 0x81, 0, [(1, 2, 3)]⟩ : SimChip)).trace + 1) :=
  ⟨rfl, rfl,
    (wakeup_iff_trailing_data cfg_poll (simEnv 320 240) 1
      (driver_at 0 0 0 0x80 ⟨false, 0x81, 0, [(1, 2, 3), (4, 5, 6)]⟩) _ _ rfl).2.2.1.mpr
      ⟨by decide, rfl, by decide⟩,
    fun hw => absurd
      ((wakeup_iff_trailing_data cfg_poll (simEnv 320 240) 1
        (driver_at 0 0 0 0x80 ⟨false, 0x81, 0, [(1, 2, 3)]⟩) _ _ rfl).2.2.1.mp hw).2.2
      (by decide)⟩

/-! ### Read cycles -/

theorem reads_append (reg : Reg) (t u : List Effect) :
    reads reg (t ++ u) = reads reg t + reads reg u := by
  simp [reads, List.countP_append]

theorem read_cycle_reads (e : Env σ) (d : Driver σ) :
    reads STMPE811_REG_TSC_DATA_X (read_cycle e d).2.trace
      = reads STMPE811_REG_TSC_DATA_X d.trace + 1 ∧
    reads STMPE811_REG_TSC_DATA_Y (read_cycle e d).2.trace
      = reads STMPE811_REG_TSC_DATA_Y d.trace + 1 ∧
    reads STMPE811_REG_TSC_DATA_Z (read_cycle e d).2.trace
      = reads STMPE811_REG_TSC_DATA_Z d.trace + 1 := by
  simp [read_cycle, read_xyz, read_reg, reads, List.countP_append, List.countP_cons, is_read]

theorem after_cycles_reads (e : Env σ) :
    ∀ (k : Nat) (d : Driver σ),
      reads STMPE811_REG_TSC_DATA_X (after_cycles e k d).trace
        = reads STMPE811_REG_TSC_DATA_X d.trace + k ∧
      reads STMPE811_REG_TSC_DATA_Y (after_cycles e k d).trace
        = reads STMPE811_REG_TSC_DATA_Y d.trace + k ∧
      reads STMPE811_REG_TSC_DATA_Z (after_cycles e k d).trace
        = reads STMPE811_REG_TSC_DATA_Z d.trace + k := by
  intro k
  induction k with
  | zero => intro d; exact ⟨rfl, rfl, rfl⟩
  | succ k ih =>
    intro d
    have h1 := ih (read_cycle e d).2
    have h2 := read_cycle_reads e d
    simp only [after_cycles]
    omega

/-- The flushing drain loop stops after the first read cycle whose status has the empty bit. -/
theorem drain_after_cycles (e : Env σ) :
    ∀ (n fuel : Nat) (d : Driver σ), n < fuel →
      (∀ k, k < n → (read_cycle e (after_cycles e k d)).1 &&& 0x20 = 0) →
      (read_cycle e (after_cycles e n d)).1 &&& 0x20 ≠ 0 →
      drain e true fuel d = Except.ok (after_cycles e (n + 1) d) := by
  intro n
  induction n with
  | zero =>
    intro fuel d hfuel _ hempty
    obtain ⟨f, rfl⟩ : ∃ f, fuel = f + 1 := ⟨fuel - 1, by omega⟩
    have hempty2 : (read_cycle e d).1 &&& 0x20 ≠ 0 := hempty
    rw [drain_succ_flush, if_neg hempty2]
    rfl
  | succ n ih =>
    intro fuel d hfuel hbusy hempty
    obtain ⟨f, rfl⟩ : ∃ f, fuel = f + 1 := ⟨fuel - 1, by omega⟩
    have hbusy0 : (read_cycle e d).1 &&& 0x20 = 0 := hbusy 0 (by omega)
    rw [drain_succ_flush, if_pos hbusy0]
    exact ih f (read_cycle e d).2 (by omega) (fun k hk => hbusy (k + 1) (by omega)) hempty

theorem loop_entry_reads (cfg : Config) (e : Env σ) (d : Driver σ) :
    reads STMPE811_REG_TSC_DATA_X (loop_entry cfg e d).2.trace
      = reads STMPE811_REG_TSC_DATA_X d.trace ∧
    reads STMPE811_REG_TSC_DATA_Y (loop_entry cfg e d).2.trace
      = reads STMPE811_REG_TSC_DATA_Y d.trace ∧
    reads STMPE811_REG_TSC_DATA_Z (loop_entry cfg e d).2.trace
      = reads STMPE811_REG_TSC_DATA_Z d.trace := by
  simp only [loop_entry, fifo_check, touched_status]
  split_ifs <;>
    simp [read_reg, write_reg, getpin_irq, reads, List.countP_append, List.countP_cons, is_read]

/-- C9: for every `N ≥ 1` and every touched call of `ginput_lld_mouse_get_reading` with a flush
requested (`clearfifo` true at the drain loop), if the `FIFO_STA` reads of the loop first show
the empty bit `0x20` after exactly `N` read cycles, then with any fuel `≥ N` the drain loop
terminates after exactly `N` reads of each of the X, Y and Z data registers, and the call goes on
to the rescale from the driver reached after those `N` cycles. -/
theorem drain_exactly_N_cycles (cfg : Config) (e : Env σ) (N fuel : Nat) (d : Driver σ)
    (hN : 1 ≤ N) (hfuel : N ≤ fuel)
    (ht : (touched_status cfg e d).2.touched ≠ 0)
    (hflush : (loop_entry cfg e d).1 = true)
    (hbusy : ∀ k, k + 1 < N →
      (read_cycle e (after_cycles e k (loop_entry cfg e d).2)).1 &&& 0x20 = 0)
    (hempty : (read_cycle e (after_cycles e (N - 1) (loop_entry cfg e d).2)).1 &&& 0x20 ≠ 0) :
    drain e true fuel (loop_entry cfg e d).2
      = Except.ok (after_cycles e N (loop_entry cfg e d).2) ∧
    (reads STMPE811_REG_TSC_DATA_X (after_cycles e N (loop_entry cfg e d).2).trace
        = reads STMPE811_REG_TSC_DATA_X d.trace + N ∧
     reads STMPE811_REG_TSC_DATA_Y (after_cycles e N (loop_entry cfg e d).2).trace
        = reads STMPE811_REG_TSC_DATA_Y d.trace + N ∧
     reads STMPE811_REG_TSC_DATA_Z (after_cycles e N (loop_entry cfg e d).2).trace
        = reads STMPE811_REG_TSC_DATA_Z d.trace + N) ∧
    ginput_lld_mouse_get_reading cfg e fuel d =
      (match rescale cfg e (after_cycles e N (loop_entry cfg e d).2) with
       | Except.error f => Except.error f
       | Except.ok d4 =>
         Except.ok ({ x := d4.x, y := d4.y, z := coord_t (pressure d4.z),
                      buttons := GINPUT_TOUCH_PRESSED },
                    { d4 with z := coord_t (pressure d4.z) })) ∧
    (∀ (r : MouseReading) (d' : Driver σ),
      ginput_lld_mouse_get_reading cfg e fuel d = Except.ok (r, d') →
      reads STMPE811_REG_TSC_DATA_X d'.trace = reads STMPE811_REG_TSC_DATA_X d.trace + N ∧
      reads STMPE811_REG_TSC_DATA_Y d'.trace = reads STMPE811_REG_TSC_DATA_Y d.trace + N ∧
      reads STMPE811_REG_TSC_DATA_Z d'.trace = reads STMPE811_REG_TSC_DATA_Z d.trace + N) := by
  obtain ⟨n, rfl⟩ : ∃ n, N = n + 1 := ⟨N - 1, by omega⟩
  have hdrain := drain_after_cycles e n fuel (loop_entry cfg e d).2 (by omega)
    (fun k hk => hbusy k (by omega)) hempty
  have hreads : reads STMPE811_REG_TSC_DATA_X (after_cycles e (n + 1) (loop_entry cfg e d).2).trace
        = reads STMPE811_REG_TSC_DATA_X d.trace + (n + 1) ∧
     reads STMPE811_REG_TSC_DATA_Y (after_cycles e (n + 1) (loop_entry cfg e d).2).trace
        = reads STMPE811_REG_TSC_DATA_Y d.trace + (n + 1) ∧
     reads STMPE811_REG_TSC_DATA_Z (after_cycles e (n + 1) (loop_entry cfg e d).2).trace
        = reads STMPE811_REG_TSC_DATA_Z d.trace + (n + 1) := by
    have h1 := after_cycles_reads e (n + 1) (loop_entry cfg e d).2
    have h2 := loop_entry_reads cfg e d
    omega
  have hcall : ginput_lld_mouse_get_reading cfg e fuel d =
      (match rescale cfg e (after_cycles e (n + 1) (loop_entry cfg e d).2) with
       | Except.error f => Except.error f
       | Except.ok d4 =>
         Except.ok ({ x := d4.x, y := d4.y, z := coord_t (pressure d4.z),
                      buttons := GINPUT_TOUCH_PRESSED },
                    { d4 with z := coord_t (pressure d4.z) })) := by
    have hle : loop_entry cfg e d =
        fifo_check cfg e (touched_status cfg e d).1 (touched_status cfg e d).2 := rfl
    rw [hle] at hflush hdrain
    simp only [ginput_lld_mouse_get_reading, if_neg ht, hflush, hdrain]
    rw [hle]
    cases rescale cfg e (after_cycles e (n + 1)
      (fifo_check cfg e (touched_status cfg e d).1 (touched_status cfg e d).2).2) with
    | error f => rfl
    | ok d4 => simp [trailing_check]
  refine ⟨hdrain, hreads, hcall, ?_⟩
  intro r d' hret
  rw [hcall] at hret
  split at hret
  · exact absurd hret (by simp)
  · rename_i d4 h4
    injection hret with hret
    injection hret with _ hd
    have htr : d'.trace = (after_cycles e (n + 1) (loop_entry cfg e d).2).trace := by
      rw [← hd]
      exact (rescale_frame cfg e _ d4 h4).2.2.2
    rw [htr]
    exact hreads

/-- Witness of C9: a FIFO of three entries behind an asserted IRQ pin; the loop makes three read
cycles, the third status read showing the empty bit. -/
theorem drain_exactly_N_cycles_witness :
    trace_of (ginput_lld_mouse_get_reading cfg_irq (simEnv 320 240) 3
        (driver_at 0 0 0 0 ⟨true, 0x81, 0, [(1, 2, 3), (4, 5, 6), (7, 8, 9)]⟩)) =
      Except.ok [Effect.getpin_irq true, Effect.write_reg STMPE811_REG_INT_STA 1 0xFF,
        Effect.read_reg STMPE811_REG_TSC_CTRL 1 0x81,
        Effect.read_reg STMPE811_REG_TSC_DATA_X 2 1, Effect.read_reg STMPE811_REG_TSC_DATA_Y 2 2,
        Effect.read_reg STMPE811_REG_TSC_DATA_Z 1 3, Effect.read_reg STMPE811_REG_FIFO_STA 1 0,
        Effect.read_reg STMPE811_REG_TSC_DATA_X 2 4, Effect.read_reg STMPE811_REG_TSC_DATA_Y 2 5,
        Effect.read_reg STMPE811_REG_TSC_DATA_Z 1 6, Effect.read_reg STMPE811_REG_FIFO_STA 1 0,
        Effect.read_reg STMPE811_REG_TSC_DATA_X 2 7, Effect.read_reg STMPE811_REG_TSC_DATA_Y 2 8,
        Effect.read_reg STMPE811_REG_TSC_DATA_Z 1 9,
        Effect.read_reg STMPE811_REG_FIFO_STA 1 0x20] ∧
    drain (simEnv 320 240) true 3
        (loop_entry cfg_irq (simEnv 320 240)
          (driver_at 0 0 0 0 ⟨true, 0x81, 0, [(1, 2, 3), (4, 5, 6), (7, 8, 9)]⟩)).2
      = Except.ok (after_cycles (simEnv 320 240) 3
        (loop_entry cfg_irq (simEnv 320 240)
          (driver_at 0 0 0 0 ⟨true, 0x81, 0, [(1, 2, 3), (4, 5, 6), (7, 8, 9)]⟩)).2) :=
  ⟨rfl, (drain_exactly_N_cycles cfg_irq (simEnv 320 240) 3 3
    (driver_at 0 0 0 0 ⟨true, 0x81, 0, [(1, 2, 3), (4, 5, 6), (7, 8, 9)]⟩)
    (by decide) (by decide) (by decide) rfl
    (fun k hk => by
      have hk2 : k < 2 := by omega
      interval_cases k <;> rfl) (by decide)).1⟩

/-- C10 as stated fails: in polling mode (slow-CPU switch off), with the latch set and
`TSC_CTRL` still reading touched, the status step sees no change and leaves `clearfifo` false,
yet `FIFO_STA = 0x40` (one of the bits `0xD0`) sets `clearfifo` at line 152 and the drain loop
flushes both FIFO entries, re-reading `FIFO_STA` after each. -/
theorem flush_without_edge :
    (touched_status cfg_poll (simEnv 320 240)
        (driver_at 0 0 0 0x80 ⟨false, 0x81, 0x40, [(1, 2, 3), (4, 5, 6)]⟩)).2.touched = 0x80 ∧
    (touched_status cfg_poll (simEnv 320 240)
        (driver_at 0 0 0 0x80 ⟨false, 0x81, 0x40, [(1, 2, 3), (4, 5, 6)]⟩)).1 = false ∧
    (loop_entry cfg_poll (simEnv 320 240)
        (driver_at 0 0 0 0x80 ⟨false, 0x81, 0x40, [(1, 2, 3), (4, 5, 6)]⟩)).1 = true ∧
    trace_of (ginput_lld_mouse_get_reading cfg_poll (simEnv 320 240) 2
        (driver_at 0 0 0 0x80 ⟨false, 0x81, 0x40, [(1, 2, 3), (4, 5, 6)]⟩)) =
      Except.ok [Effect.read_reg STMPE811_REG_TSC_CTRL 1 0x81,
        Effect.read_reg STMPE811_REG_FIFO_STA 1 0x40,
        Effect.read_reg STMPE811_REG_TSC_DATA_X 2 1, Effect.read_reg STMPE811_REG_TSC_DATA_Y 2 2,
        Effect.read_reg STMPE811_REG_TSC_DATA_Z 1 3, Effect.read_reg STMPE811_REG_FIFO_STA 1 0x40,
        Effect.read_reg STMPE811_REG_TSC_DATA_X 2 4, Effect.read_reg STMPE811_REG_TSC_DATA_Y 2 5,
        Effect.read_reg STMPE811_REG_TSC_DATA_Z 1 6,
        Effect.read_reg STMPE811_REG_FIFO_STA 1 0x20] :=
  ⟨rfl, rfl, rfl, rfl⟩

/-- C10, amended: in polling mode, on every call (from any driver state, so along every sequence
of calls) the status step polls `TSC_CTRL` and sets `clearfifo` exactly when the polled touched
bit differs from the previous latch.  On a touched call `clearfifo` is true at the drain loop
exactly when that change was seen, or `STMP811_SLOW_CPU` is set, or `FIFO_STA` has one of the
bits `0xD0` set.  On an untouched call nothing but `TSC_CTRL` is read, whatever `clearfifo`. -/
theorem poll_flush_requests (cfg : Config) (e : Env σ) (d : Driver σ)
    (hpoll : cfg.STMP811_NO_GPIO_IRQPIN = true) :
    (touched_status cfg e d).2.touched
      = uint8_t (e.read_reg STMPE811_REG_TSC_CTRL 1 d.hw).1 &&& 0x80 ∧
    ((touched_status cfg e d).1 = true ↔ (touched_status cfg e d).2.touched ≠ d.touched) ∧
    ((touched_status cfg e d).2.touched ≠ 0 →
      ((loop_entry cfg e d).1 = true ↔
        ((touched_status cfg e d).2.touched ≠ d.touched ∨ cfg.STMP811_SLOW_CPU = true ∨
         (e.read_reg STMPE811_REG_FIFO_STA 1 (touched_status cfg e d).2.hw).1 &&& 0xD0 ≠ 0))) ∧
    ((touched_status cfg e d).2.touched = 0 → ∀ fuel : Nat,
      trace_of (ginput_lld_mouse_get_reading cfg e fuel d) =
        Except.ok (d.trace ++ [Effect.read_reg STMPE811_REG_TSC_CTRL 1
          (e.read_reg STMPE811_REG_TSC_CTRL 1 d.hw).1])) := by
  have hs : touched_status cfg e d =
      (decide (uint8_t (e.read_reg STMPE811_REG_TSC_CTRL 1 d.hw).1 &&& 0x80 ≠ d.touched),
       { (read_reg e STMPE811_REG_TSC_CTRL 1 d).2 with
         touched := uint8_t (e.read_reg STMPE811_REG_TSC_CTRL 1 d.hw).1 &&& 0x80 }) := by
    simp [touched_status, hpoll]
  refine ⟨by rw [hs], by rw [hs]; simp, ?_, ?_⟩
  · intro _
    simp only [loop_entry, fifo_check]
    rw [hs]
    cases hslow : cfg.STMP811_SLOW_CPU with
    | true => simp
    | false =>
      by_cases hedge : uint8_t (e.read_reg STMPE811_REG_TSC_CTRL 1 d.hw).1 &&& 0x80 = d.touched
      · by_cases hbits : (e.read_reg STMPE811_REG_FIFO_STA 1
            (e.read_reg STMPE811_REG_TSC_CTRL 1 d.hw).2).1 &&& 0xD0 = 0
        · simp [hedge, hbits, read_reg]
        · simp [hedge, hbits, read_reg]
      · simp [hedge]
  · intro h0 fuel
    rw [get_reading_of_untouched cfg e fuel d h0, hs]
    rfl

/-- Witness of C10, amended: three polls.  A press (latch 0, chip touched) and a release (latch
set, chip untouched) change the latch and set `clearfifo` in the status step; a poll with the
latch set and the chip still touched leaves it false. -/
theorem poll_flush_requests_witness :
    (cfg_poll.STMP811_NO_GPIO_IRQPIN = true) ∧
    ((touched_status cfg_poll (simEnv 320 240)
        (driver_at 0 0 0 0 ⟨false, 0x81, 0, [(1, 2, 3)]⟩)).1 = true ↔
      (touched_status cfg_poll (simEnv 320 240)
        (driver_at 0 0 0 0 ⟨false, 0x81, 0, [(1, 2, 3)]⟩)).2.touched ≠
        (driver_at 0 0 0 0 (⟨false, 0x81, 0, [(1, 2, 3)]⟩ : SimChip)).touched) ∧
    ((touched_status cfg_poll (simEnv 320 240)
        (driver_at 0 0 0 0x80 ⟨false, 0x01, 0, []⟩)).1 = true ↔
      (touched_status cfg_poll (simEnv 320 240)
        (driver_at 0 0 0 0x80 ⟨false, 0x01, 0, []⟩)).2.touched ≠
        (driver_at 0 0 0 0x80 (⟨false, 0x01, 0, []⟩ : SimChip)).touched) ∧
    ((touched_status cfg_poll (simEnv 320 240)
        (driver_at 0 0 0 0x80 ⟨false, 0x81, 0, [(1, 2, 3)]⟩)).1 = true ↔
      (touched_status cfg_poll (simEnv 320 240)
        (driver_at 0 0 0 0x80 ⟨false, 0x81, 0, [(1, 2, 3)]⟩)).2.touched ≠
        (driver_at 0 0 0 0x80 (⟨false, 0x81, 0, [(1, 2, 3)]⟩ : SimChip)).touched) ∧
    (touched_status cfg_poll (simEnv 320 240)
        (driver_at 0 0 0 0 ⟨false, 0x81, 0, [(1, 2, 3)]⟩)).1 = true ∧
    (touched_status cfg_poll (simEnv 320 240)
        (driver_at 0 0 0 0x80 ⟨false, 0x01, 0, []⟩)).1 = true ∧
    (touched_status cfg_poll (simEnv 320 240)
        (driver_at 0 0 0 0x80 ⟨false, 0x81, 0, [(1, 2, 3)]⟩)).1 = false :=
  ⟨rfl,
   (poll_flush_requests cfg_poll (simEnv 320 240)
      (driver_at 0 0 0 0 ⟨false, 0x81, 0, [(1, 2, 3)]⟩) rfl).2.1,
   (poll_flush_requests cfg_poll (simEnv 320 240)
      (driver_at 0 0 0 0x80 ⟨false, 0x01, 0, []⟩) rfl).2.1,
   (poll_flush_requests cfg_poll (simEnv 320 240)
      (driver_at 0 0 0 0x80 ⟨false, 0x81, 0, [(1, 2, 3)]⟩) rfl).2.1,
   rfl, rfl, rfl⟩

/-! ### A FIFO that never reports empty -/

/-- A flushing drain loop whose status reads never show the empty bit uses up any fuel. -/
theorem drain_never_empty (e : Env σ) :
    ∀ (fuel : Nat) (d : Driver σ),
      (∀ k, (read_cycle e (after_cycles e k d)).1 &&& 0x20 = 0) →
      drain e true fuel d = Except.error Fault.out_of_fuel := by
  intro fuel
  induction fuel with
  | zero => intro d _; rfl
  | succ n ih =>
    intro d hnever
    have h0 : (read_cycle e d).1 &&& 0x20 = 0 := hnever 0
    rw [drain_succ_flush, if_pos h0]
    exact ih (read_cycle e d).2 (fun k => hnever (k + 1))

/-- A touched call stops with the fault of its drain loop. -/
theorem get_reading_of_drain_fault (cfg : Config) (e : Env σ) (fuel : Nat) (d : Driver σ)
    (f : Fault) (ht : (touched_status cfg e d).2.touched ≠ 0)
    (h : drain e (loop_entry cfg e d).1 fuel (loop_entry cfg e d).2 = Except.error f) :
    ginput_lld_mouse_get_reading cfg e fuel d = Except.error f := by
  have hle : loop_entry cfg e d =
      fifo_check cfg e (touched_status cfg e d).1 (touched_status cfg e d).2 := rfl
  rw [hle] at h
  simp only [ginput_lld_mouse_get_reading, if_neg ht, h]

/-- On the chip with the faulty FIFO status every read cycle reads `FIFO_STA` as 0. -/
theorem stuck_read_cycle (W H : Int) (d : Driver SimChip) :
    (read_cycle (simEnvStuck W H) d).1 &&& 0x20 = 0 := by
  simp [read_cycle, read_reg, simEnvStuck]

/-- C11 as stated fails: the drain loop has no guard.  On a chip whose `FIFO_STA` never shows
the empty bit, a touched call with the IRQ pin asserted (flush requested) uses up 64 read
cycles without returning, and no amount of fuel makes it return. -/
theorem drain_loop_unbounded :
    ginput_lld_mouse_get_reading cfg_irq (simEnvStuck 320 240) 64
        (driver_at 0 0 0 0 ⟨true, 0x81, 0, [(1, 2, 3)]⟩) = Except.error Fault.out_of_fuel ∧
    ¬ ∃ (fuel : Nat) (p : MouseReading × Driver SimChip),
        ginput_lld_mouse_get_reading cfg_irq (simEnvStuck 320 240) fuel
          (driver_at 0 0 0 0 ⟨true, 0x81, 0, [(1, 2, 3)]⟩) = Except.ok p := by
  have hall : ∀ fuel : Nat,
      ginput_lld_mouse_get_reading cfg_irq (simEnvStuck 320 240) fuel
        (driver_at 0 0 0 0 ⟨true, 0x81, 0, [(1, 2, 3)]⟩) = Except.error Fault.out_of_fuel := by
    intro fuel
    apply get_reading_of_drain_fault
    · decide
    · have hflush : (loop_entry cfg_irq (simEnvStuck 320 240)
          (driver_at 0 0 0 0 ⟨true, 0x81, 0, [(1, 2, 3)]⟩)).1 = true := rfl
      rw [hflush]
      exact drain_never_empty _ fuel _ (fun k => stuck_read_cycle 320 240 _)
  refine ⟨hall 64, ?_⟩
  rintro ⟨fuel, p, hp⟩
  rw [hall fuel] at hp
  exact absurd hp (by simp)

/-- C11, amended: the drain loop is not guarded.  On a touched call with a flush requested
(`clearfifo` true at the loop), if no `FIFO_STA` read of the loop ever shows the empty bit
`0x20`, then `ginput_lld_mouse_get_reading` does not return: whatever the number of read cycles
allowed, the loop is still running, and no fault is raised by the driver. -/
theorem drain_loop_runs_until_empty (cfg : Config) (e : Env σ) (d : Driver σ)
    (ht : (touched_status cfg e d).2.touched ≠ 0)
    (hflush : (loop_entry cfg e d).1 = true)
    (hnever : ∀ k, (read_cycle e (after_cycles e k (loop_entry cfg e d).2)).1 &&& 0x20 = 0) :
    ∀ fuel : Nat,
      drain e true fuel (loop_entry cfg e d).2 = Except.error Fault.out_of_fuel ∧
      ginput_lld_mouse_get_reading cfg e fuel d = Except.error Fault.out_of_fuel := by
  intro fuel
  have hd := drain_never_empty e fuel (loop_entry cfg e d).2 hnever
  refine ⟨hd, get_reading_of_drain_fault cfg e fuel d _ ht ?_⟩
  rw [hflush]
  exact hd

/-- Witness of C11, amended: the chip with the faulty FIFO status, polled while touched after a
press; seven read cycles do not end the loop. -/
theorem drain_loop_runs_until_empty_witness :
    drain (simEnvStuck 320 240) true 7
        (loop_entry cfg_poll (simEnvStuck 320 240)
          (driver_at 0 0 0 0 ⟨false, 0x81, 0, [(1, 2, 3)]⟩)).2
      = Except.error Fault.out_of_fuel ∧
    ginput_lld_mouse_get_reading cfg_poll (simEnvStuck 320 240) 7
        (driver_at 0 0 0 0 ⟨false, 0x81, 0, [(1, 2, 3)]⟩) = Except.error Fault.out_of_fuel :=
  drain_loop_runs_until_empty cfg_poll (simEnvStuck 320 240)
    (driver_at 0 0 0 0 ⟨false, 0x81, 0, [(1, 2, 3)]⟩) (by decide) rfl
    (fun k => stuck_read_cycle 320 240 _) 7

/-! ### Division by zero in the rescale -/

theorem tdiv_4096_eq_zero_iff (W : Int) :
    Int.tdiv 4096 W = 0 ↔ (W = 0 ∨ W < -4096 ∨ 4096 < W) := by
  rcases lt_trichotomy W 0 with h | h | h
  · have hneg : Int.tdiv 4096 W = -(Int.tdiv 4096 (-W)) := by
      rw [Int.tdiv_neg, neg_neg]
    have he : Int.tdiv 4096 (-W) = 4096 / (-W) := Int.tdiv_eq_ediv (by norm_num) (by omega)
    rw [hneg, he]
    by_cases hb : -W ≤ 4096
    · have h1 : 1 ≤ (4096 : Int) / (-W) := Int.le_ediv_of_mul_le (by omega) (by omega)
      constructor
      · intro h0; omega
      · intro h0; omega
    · have h1 : (4096 : Int) / (-W) = 0 := Int.ediv_eq_zero_of_lt (by norm_num) (by omega)
      constructor
      · intro _; omega
      · intro _; omega
  · subst h; simp
  · have he : Int.tdiv 4096 W = 4096 / W := Int.tdiv_eq_ediv (by norm_num) (by omega)
    rw [he]
    by_cases hb : W ≤ 4096
    · have h1 : 1 ≤ (4096 : Int) / W := Int.le_ediv_of_mul_le (by omega) (by omega)
      constructor
      · intro h0; omega
      · intro h0; omega
    · have h1 : (4096 : Int) / W = 0 := Int.ediv_eq_zero_of_lt (by norm_num) (by omega)
      constructor
      · intro _; omega
      · intro _; omega

/-- The rescale of `x` divides by zero exactly for a width that is 0 or beyond 4096 in absolute
value, and has a result otherwise. -/
theorem rescale_x_fault_iff (W x : Int) :
    (rescale_x W x = Except.error Fault.division_by_zero ↔ (W = 0 ∨ W < -4096 ∨ 4096 < W)) ∧
    (¬ (W = 0 ∨ W < -4096 ∨ 4096 < W) → ∃ v, rescale_x W x = Except.ok v) := by
  have hz := tdiv_4096_eq_zero_iff W
  unfold rescale_x
  by_cases hbad : W = 0 ∨ Int.tdiv 4096 W = 0
  · have hbad2 : W = 0 ∨ W < -4096 ∨ 4096 < W := by
      rcases hbad with h | h
      · exact Or.inl h
      · exact hz.mp h
    rw [if_pos hbad]
    exact ⟨⟨fun _ => hbad2, fun _ => rfl⟩, fun h => absurd hbad2 h⟩
  · have hgood : ¬ (W = 0 ∨ W < -4096 ∨ 4096 < W) := fun h => hbad (Or.inr (hz.mpr h))
    rw [if_neg hbad]
    exact ⟨⟨fun h => absurd h (by simp), fun h => absurd h hgood⟩, fun _ => ⟨_, rfl⟩⟩

theorem rescale_y_fault_iff (H y : Int) :
    (rescale_y H y = Except.error Fault.division_by_zero ↔ (H = 0 ∨ H < -4096 ∨ 4096 < H)) ∧
    (¬ (H = 0 ∨ H < -4096 ∨ 4096 < H) → ∃ v, rescale_y H y = Except.ok v) := by
  have hz := tdiv_4096_eq_zero_iff H
  unfold rescale_y
  by_cases hbad : H = 0 ∨ Int.tdiv 4096 H = 0
  · have hbad2 : H = 0 ∨ H < -4096 ∨ 4096 < H := by
      rcases hbad with h | h
      · exact Or.inl h
      · exact hz.mp h
    rw [if_pos hbad]
    exact ⟨⟨fun _ => hbad2, fun _ => rfl⟩, fun h => absurd hbad2 h⟩
  · have hgood : ¬ (H = 0 ∨ H < -4096 ∨ 4096 < H) := fun h => hbad (Or.inr (hz.mpr h))
    rw [if_neg hbad]
    exact ⟨⟨fun h => absurd h (by simp), fun h => absurd h hgood⟩, fun _ => ⟨_, rfl⟩⟩

/-- The rescale step faults exactly when it is compiled in and the width or the height is 0 or
beyond 4096 in absolute value. -/
theorem rescale_fault_iff (cfg : Config) (e : Env σ) (d : Driver σ) :
    rescale cfg e d = Except.error Fault.division_by_zero ↔
      (cfg.GINPUT_MOUSE_NEED_CALIBRATION = false ∧
        ((coord_t (e.gdispGetWidth d.hw) = 0 ∨ coord_t (e.gdispGetWidth d.hw) < -4096 ∨
            4096 < coord_t (e.gdispGetWidth d.hw)) ∨
         (coord_t (e.gdispGetHeight d.hw) = 0 ∨ coord_t (e.gdispGetHeight d.hw) < -4096 ∨
            4096 < coord_t (e.gdispGetHeight d.hw)))) := by
  cases hcal : cfg.GINPUT_MOUSE_NEED_CALIBRATION with
  | true => simp [rescale, hcal]
  | false =>
    have hx := rescale_x_fault_iff (coord_t (e.gdispGetWidth d.hw)) d.x
    have hy := rescale_y_fault_iff (coord_t (e.gdispGetHeight d.hw)) d.y
    simp only [rescale, hcal, Bool.false_eq_true, if_false, true_and]
    by_cases hW : (coord_t (e.gdispGetWidth d.hw) = 0 ∨ coord_t (e.gdispGetWidth d.hw) < -4096 ∨
            4096 < coord_t (e.gdispGetWidth d.hw))
    · rw [hx.1.mpr hW]
      exact ⟨fun _ => Or.inl hW, fun _ => rfl⟩
    · obtain ⟨vx, hvx⟩ := hx.2 hW
      rw [hvx]
      by_cases hH : (coord_t (e.gdispGetHeight d.hw) = 0 ∨
          coord_t (e.gdispGetHeight d.hw) < -4096 ∨ 4096 < coord_t (e.gdispGetHeight d.hw))
      · rw [hy.1.mpr hH]
        exact ⟨fun _ => Or.inr hH, fun _ => rfl⟩
      · obtain ⟨vy, hvy⟩ := hy.2 hH
        rw [hvy]
        exact ⟨fun h => absurd h (by simp), fun h => h.elim (absurd · hW) (absurd · hH)⟩

/-- The display size plays no part in `ginput_lld_mouse_init`. -/
theorem init_display_irrelevant (cfg : Config) (e : Env σ) (w h : σ → Int) (d : Driver σ) :
    ginput_lld_mouse_init cfg { e with gdispGetWidth := w, gdispGetHeight := h } d =
      ginput_lld_mouse_init cfg e d := by
  simp [ginput_lld_mouse_init, init_board, write_reg, read_reg, chThdSleepMilliseconds]

/-- When the rescale is compiled out, or the width and the height are non-zero and at most 4096
in absolute value, the rescale step has a result. -/
theorem rescale_ok_of_valid (cfg : Config) (e : Env σ) (d : Driver σ)
    (h : ¬ (cfg.GINPUT_MOUSE_NEED_CALIBRATION = false ∧
        ((coord_t (e.gdispGetWidth d.hw) = 0 ∨ coord_t (e.gdispGetWidth d.hw) < -4096 ∨
            4096 < coord_t (e.gdispGetWidth d.hw)) ∨
         (coord_t (e.gdispGetHeight d.hw) = 0 ∨ coord_t (e.gdispGetHeight d.hw) < -4096 ∨
            4096 < coord_t (e.gdispGetHeight d.hw))))) :
    ∃ d4 : Driver σ, rescale cfg e d = Except.ok d4 := by
  cases hcal : cfg.GINPUT_MOUSE_NEED_CALIBRATION with
  | true => exact ⟨d, by simp [rescale, hcal]⟩
  | false =>
    have hW : ¬ (coord_t (e.gdispGetWidth d.hw) = 0 ∨ coord_t (e.gdispGetWidth d.hw) < -4096 ∨
            4096 < coord_t (e.gdispGetWidth d.hw)) := fun hw => h ⟨hcal, Or.inl hw⟩
    have hH : ¬ (coord_t (e.gdispGetHeight d.hw) = 0 ∨
        coord_t (e.gdispGetHeight d.hw) < -4096 ∨ 4096 < coord_t (e.gdispGetHeight d.hw)) :=
      fun hh => h ⟨hcal, Or.inr hh⟩
    obtain ⟨vx, hvx⟩ := (rescale_x_fault_iff (coord_t (e.gdispGetWidth d.hw)) d.x).2 hW
    obtain ⟨vy, hvy⟩ := (rescale_y_fault_iff (coord_t (e.gdispGetHeight d.hw)) d.y).2 hH
    exact ⟨{ d with x := vx, y := vy }, by
      simp only [rescale, hcal, Bool.false_eq_true, if_false, hvx, hvy]⟩

/-- A touched call whose drain loop ends at `d3` goes on with the rescale, the pressure and the
trailing check. -/
theorem get_reading_of_drained (cfg : Config) (e : Env σ) (fuel : Nat) (d d3 : Driver σ)
    (ht : (touched_status cfg e d).2.touched ≠ 0)
    (h3 : drain e (loop_entry cfg e d).1 fuel (loop_entry cfg e d).2 = Except.ok d3) :
    ginput_lld_mouse_get_reading cfg e fuel d =
      (match rescale cfg e d3 with
       | Except.error f => Except.error f
       | Except.ok d4 =>
         Except.ok ({ x := d4.x, y := d4.y, z := coord_t (pressure d4.z),
                      buttons := GINPUT_TOUCH_PRESSED },
                    trailing_check e (loop_entry cfg e d).1
                      { d4 with z := coord_t (pressure d4.z) })) := by
  have hle : loop_entry cfg e d =
      fifo_check cfg e (touched_status cfg e d).1 (touched_status cfg e d).2 := rfl
  rw [hle] at h3
  cases hr : rescale cfg e d3 with
  | error f => simp only [ginput_lld_mouse_get_reading, if_neg ht, h3, hr]
  | ok d4 => simp only [ginput_lld_mouse_get_reading, if_neg ht, h3, hr, hle]

/-- C12 as stated fails: `ginput_lld_mouse_init` rejects nothing.  Behind a display 5000 pixels
wide it does exactly what it does behind one 320 wide, and the touched call that follows divides
by `4096/5000 = 0`; a width of 0 does the same. -/
theorem no_display_validation :
    ginput_lld_mouse_init cfg_irq (simEnv 5000 240) (driver_at 0 0 0 0 ⟨false, 0x01, 0, []⟩) =
      ginput_lld_mouse_init cfg_irq (simEnv 320 240) (driver_at 0 0 0 0 ⟨false, 0x01, 0, []⟩) ∧
    reading_of (ginput_lld_mouse_get_reading cfg_irq (simEnv 5000 240) 1
        { ginput_lld_mouse_init cfg_irq (simEnv 5000 240)
            (driver_at 0 0 0 0 ⟨false, 0x01, 0, []⟩) with
          hw := ⟨true, 0x81, 0, [(2048, 1024, 128)]⟩ }) =
      Except.error Fault.division_by_zero ∧
    reading_of (ginput_lld_mouse_get_reading cfg_irq (simEnv 0 240) 1
        { ginput_lld_mouse_init cfg_irq (simEnv 0 240)
            (driver_at 0 0 0 0 ⟨false, 0x01, 0, []⟩) with
          hw := ⟨true, 0x81, 0, [(2048, 1024, 128)]⟩ }) =
      Except.error Fault.division_by_zero :=
  ⟨rfl, rfl, rfl⟩

/-- C12, amended: no display dimension is rejected at initialisation, `ginput_lld_mouse_init`
being the same whatever `gdispGetWidth` and `gdispGetHeight` return.  A touched call of
`ginput_lld_mouse_get_reading` whose drain loop ends divides by zero at sample time exactly when
the rescale is compiled in (calibration disabled) and the width or the height, as a `coord_t`,
is 0 or beyond 4096 in absolute value; in every other case, so for all widths and heights in
`[1, 4096]`, the call returns a reading. -/
theorem division_by_zero_at_sample_time (cfg : Config) (e : Env σ) (fuel : Nat)
    (d : Driver σ) :
    (∀ w h : σ → Int,
      ginput_lld_mouse_init cfg { e with gdispGetWidth := w, gdispGetHeight := h } d =
        ginput_lld_mouse_init cfg e d) ∧
    (∀ d3 : Driver σ, (touched_status cfg e d).2.touched ≠ 0 →
      drain e (loop_entry cfg e d).1 fuel (loop_entry cfg e d).2 = Except.ok d3 →
      (ginput_lld_mouse_get_reading cfg e fuel d = Except.error Fault.division_by_zero ↔
        (cfg.GINPUT_MOUSE_NEED_CALIBRATION = false ∧
          ((coord_t (e.gdispGetWidth d3.hw) = 0 ∨ coord_t (e.gdispGetWidth d3.hw) < -4096 ∨
              4096 < coord_t (e.gdispGetWidth d3.hw)) ∨
           (coord_t (e.gdispGetHeight d3.hw) = 0 ∨ coord_t (e.gdispGetHeight d3.hw) < -4096 ∨
              4096 < coord_t (e.gdispGetHeight d3.hw))))) ∧
      (¬ (cfg.GINPUT_MOUSE_NEED_CALIBRATION = false ∧
          ((coord_t (e.gdispGetWidth d3.hw) = 0 ∨ coord_t (e.gdispGetWidth d3.hw) < -4096 ∨
              4096 < coord_t (e.gdispGetWidth d3.hw)) ∨
           (coord_t (e.gdispGetHeight d3.hw) = 0 ∨ coord_t (e.gdispGetHeight d3.hw) < -4096 ∨
              4096 < coord_t (e.gdispGetHeight d3.hw)))) →
        ∃ p : MouseReading × Driver σ,
          ginput_lld_mouse_get_reading cfg e fuel d = Except.ok p)) := by
  refine ⟨fun w h => init_display_irrelevant cfg e w h d, ?_⟩
  intro d3 ht h3
  have hcall := get_reading_of_drained cfg e fuel d d3 ht h3
  constructor
  · rw [← rescale_fault_iff cfg e d3, hcall]
    cases hr : rescale cfg e d3 with
    | error f => simp
    | ok d4 => simp
  · intro hvalid
    obtain ⟨d4, h4⟩ := rescale_ok_of_valid cfg e d3 hvalid
    rw [hcall, h4]
    exact ⟨_, rfl⟩

/-- Witness of C12, amended: behind a 320x240 display the touched call returns a reading. -/
theorem division_by_zero_at_sample_time_witness :
    ∃ p : MouseReading × Driver SimChip,
      ginput_lld_mouse_get_reading cfg_irq (simEnv 320 240) 1
        (driver_at 0 0 0 0 ⟨true, 0x81, 0, [(2048, 1024, 128)]⟩) = Except.ok p :=
  ((division_by_zero_at_sample_time cfg_irq (simEnv 320 240) 1
      (driver_at 0 0 0 0 ⟨true, 0x81, 0, [(2048, 1024, 128)]⟩)).2
    (result_or (driver_at 0 0 0 0 ⟨false, 0, 0, []⟩)
      (drain (simEnv 320 240) true 1
        (loop_entry cfg_irq (simEnv 320 240)
          (driver_at 0 0 0 0 ⟨true, 0x81, 0, [(2048, 1024, 128)]⟩)).2))
    (by decide) rfl).2 (by decide)

/-! ### The trace of `ginput_lld_mouse_init` -/

/-- In the polling configuration `ginput_lld_mouse_init` makes these calls, reads nothing and
leaves the statics alone. -/
theorem init_poll (cfg : Config) (e : Env σ) (d : Driver σ)
    (hcfg : cfg.STMP811_NO_GPIO_IRQPIN = true) :
    (ginput_lld_mouse_init cfg e d).trace = d.trace ++
      [Effect.init_board,
       Effect.write_reg STMPE811_REG_SYS_CTRL1 1 0x02,
       Effect.chThdSleepMilliseconds 10,
       Effect.write_reg STMPE811_REG_SYS_CTRL2 1 0x0C,
       Effect.write_reg STMPE811_REG_INT_EN 1 0x00,
       Effect.write_reg STMPE811_REG_ADC_CTRL1 1 0x48,
       Effect.chThdSleepMilliseconds 2,
       Effect.write_reg STMPE811_REG_ADC_CTRL2 1 0x01,
       Effect.write_reg STMPE811_REG_GPIO_AF 1 0x00,
       Effect.write_reg STMPE811_REG_TSC_CFG 1 0x9A,
       Effect.write_reg STMPE811_REG_FIFO_TH 1 0x40,
       Effect.write_reg STMPE811_REG_FIFO_STA 1 0x01,
       Effect.write_reg STMPE811_REG_FIFO_STA 1 0x00,
       Effect.write_reg STMPE811_REG_TSC_FRACT_XYZ 1 0x07,
       Effect.write_reg STMPE811_REG_TSC_I_DRIVE 1 0x01,
       Effect.write_reg STMPE811_REG_TSC_CTRL 1 0x00,
       Effect.write_reg STMPE811_REG_TSC_CTRL 1 0x01,
       Effect.write_reg STMPE811_REG_INT_STA 1 0xFF,
       Effect.write_reg STMPE811_REG_INT_CTRL 1 0x01] ∧
    (ginput_lld_mouse_init cfg e d).touched = d.touched ∧
    (ginput_lld_mouse_init cfg e d).x = d.x ∧ (ginput_lld_mouse_init cfg e d).y = d.y ∧
    (ginput_lld_mouse_init cfg e d).z = d.z := by
  simp [ginput_lld_mouse_init, hcfg, init_board, write_reg, chThdSleepMilliseconds]

/-- In the interrupt-pin configuration `ginput_lld_mouse_init` makes these calls; the value `v`
read from `TSC_CTRL` gives the latch. -/
theorem init_irq (cfg : Config) (e : Env σ) (d : Driver σ)
    (hcfg : cfg.STMP811_NO_GPIO_IRQPIN = false) :
    ∃ v : Nat,
    (ginput_lld_mouse_init cfg e d).trace = d.trace ++
      [Effect.init_board,
       Effect.write_reg STMPE811_REG_SYS_CTRL1 1 0x02,
       Effect.chThdSleepMilliseconds 10,
       Effect.write_reg STMPE811_REG_SYS_CTRL2 1 0x0C,
       Effect.write_reg STMPE811_REG_INT_EN 1 0x01,
       Effect.write_reg STMPE811_REG_ADC_CTRL1 1 0x48,
       Effect.chThdSleepMilliseconds 2,
       Effect.write_reg STMPE811_REG_ADC_CTRL2 1 0x01,
       Effect.write_reg STMPE811_REG_GPIO_AF 1 0x00,
       Effect.write_reg STMPE811_REG_TSC_CFG 1 0x9A,
       Effect.write_reg STMPE811_REG_FIFO_TH 1 0x40,
       Effect.write_reg STMPE811_REG_FIFO_STA 1 0x01,
       Effect.write_reg STMPE811_REG_FIFO_STA 1 0x00,
       Effect.write_reg STMPE811_REG_TSC_FRACT_XYZ 1 0x07,
       Effect.write_reg STMPE811_REG_TSC_I_DRIVE 1 0x01,
       Effect.write_reg STMPE811_REG_TSC_CTRL 1 0x00,
       Effect.write_reg STMPE811_REG_TSC_CTRL 1 0x01,
       Effect.write_reg STMPE811_REG_INT_STA 1 0xFF,
       Effect.read_reg STMPE811_REG_TSC_CTRL 1 v,
       Effect.write_reg STMPE811_REG_INT_CTRL 1 0x01] ∧
    (ginput_lld_mouse_init cfg e d).touched = uint8_t v &&& 0x80 ∧
    (ginput_lld_mouse_init cfg e d).x = d.x ∧ (ginput_lld_mouse_init cfg e d).y = d.y ∧
    (ginput_lld_mouse_init cfg e d).z = d.z := by
  simp only [ginput_lld_mouse_init, hcfg, init_board, write_reg, read_reg,
    chThdSleepMilliseconds, List.append_assoc, List.cons_append, List.nil_append,
    Bool.not_false, Bool.false_eq_true, if_true, if_false]
  exact ⟨_, rfl, rfl, trivial, trivial, trivial⟩

theorem sleeps_append (t u : List Effect) : sleeps (t ++ u) = sleeps t ++ sleeps u := by
  induction t with
  | nil => rfl
  | cons ev t ih => cases ev <;> simp [sleeps, ih]

/-- C13 as stated fails: in the polling configuration `ginput_lld_mouse_init` reads no register
and leaves the latch as it was (0 here, the chip reporting a touch with `TSC_CTRL = 0x81`); it
is in the interrupt-pin configuration that the latch is seeded, to `0x80` here. -/
theorem init_poll_does_not_seed :
    (ginput_lld_mouse_init cfg_poll (simEnv 320 240)
        (driver_at 0 0 0 0 ⟨false, 0x81, 0, []⟩)).touched = 0 ∧
    reads STMPE811_REG_TSC_CTRL (ginput_lld_mouse_init cfg_poll (simEnv 320 240)
        (driver_at 0 0 0 0 ⟨false, 0x81, 0, []⟩)).trace = 0 ∧
    (ginput_lld_mouse_init cfg_irq (simEnv 320 240)
        (driver_at 0 0 0 0 ⟨false, 0x81, 0, []⟩)).touched = 0x80 ∧
    reads STMPE811_REG_TSC_CTRL (ginput_lld_mouse_init cfg_irq (simEnv 320 240)
        (driver_at 0 0 0 0 ⟨false, 0x81, 0, []⟩)).trace = 1 :=
  ⟨rfl, rfl, rfl, rfl⟩

/-- C13, amended: `ginput_lld_mouse_init` seeds the latch `touched` from the chip's touch status
(`TSC_CTRL & 0x80`) if interrupt-pin mode is available (`STMP811_NO_GPIO_IRQPIN` false), with a
read placed right after the write that clears the pending interrupts (`INT_STA = 0xFF`) and
right before the write that enables interrupt signalling (`INT_CTRL = 0x01`), the only read of
the function.  In the polling configuration it reads no register and leaves the latch as it
was. -/
theorem init_seeds_latch_with_irq_pin (cfg : Config) (e : Env σ) (d : Driver σ) :
    (cfg.STMP811_NO_GPIO_IRQPIN = false →
      ∃ (v : Nat) (pre : List Effect),
        (ginput_lld_mouse_init cfg e d).trace = d.trace ++ pre ++
          [Effect.write_reg STMPE811_REG_INT_STA 1 0xFF,
           Effect.read_reg STMPE811_REG_TSC_CTRL 1 v,
           Effect.write_reg STMPE811_REG_INT_CTRL 1 0x01] ∧
        (ginput_lld_mouse_init cfg e d).touched = uint8_t v &&& 0x80 ∧
        (∀ reg : Reg, reads reg pre = 0)) ∧
    (cfg.STMP811_NO_GPIO_IRQPIN = true →
      ∃ pre : List Effect,
        (ginput_lld_mouse_init cfg e d).trace = d.trace ++ pre ++
          [Effect.write_reg STMPE811_REG_INT_STA 1 0xFF,
           Effect.write_reg STMPE811_REG_INT_CTRL 1 0x01] ∧
        (ginput_lld_mouse_init cfg e d).touched = d.touched ∧
        (∀ reg : Reg, reads reg pre = 0)) := by
  constructor
  · intro hcfg
    obtain ⟨v, htr, ht, -⟩ := init_irq cfg e d hcfg
    refine ⟨v,
      [Effect.init_board,
        Effect.write_reg STMPE811_REG_SYS_CTRL1 1 0x02,
        Effect.chThdSleepMilliseconds 10,
        Effect.write_reg STMPE811_REG_SYS_CTRL2 1 0x0C,
        Effect.write_reg STMPE811_REG_INT_EN 1 0x01,
        Effect.write_reg STMPE811_REG_ADC_CTRL1 1 0x48,
        Effect.chThdSleepMilliseconds 2,
        Effect.write_reg STMPE811_REG_ADC_CTRL2 1 0x01,
        Effect.write_reg STMPE811_REG_GPIO_AF 1 0x00,
        Effect.write_reg STMPE811_REG_TSC_CFG 1 0x9A,
        Effect.write_reg STMPE811_REG_FIFO_TH 1 0x40,
        Effect.write_reg STMPE811_REG_FIFO_STA 1 0x01,
        Effect.write_reg STMPE811_REG_FIFO_STA 1 0x00,
        Effect.write_reg STMPE811_REG_TSC_FRACT_XYZ 1 0x07,
        Effect.write_reg STMPE811_REG_TSC_I_DRIVE 1 0x01,
        Effect.write_reg STMPE811_REG_TSC_CTRL 1 0x00,
        Effect.write_reg STMPE811_REG_TSC_CTRL 1 0x01], ?_, ht, ?_⟩
    · rw [htr, List.append_assoc]
      rfl
    · intro reg
      simp [reads, is_read]
  · intro hcfg
    obtain ⟨htr, ht, -⟩ := init_poll cfg e d hcfg
    refine ⟨
      [Effect.init_board,
        Effect.write_reg STMPE811_REG_SYS_CTRL1 1 0x02,
        Effect.chThdSleepMilliseconds 10,
        Effect.write_reg STMPE811_REG_SYS_CTRL2 1 0x0C,
        Effect.write_reg STMPE811_REG_INT_EN 1 0x00,
        Effect.write_reg STMPE811_REG_ADC_CTRL1 1 0x48,
        Effect.chThdSleepMilliseconds 2,
        Effect.write_reg STMPE811_REG_ADC_CTRL2 1 0x01,
        Effect.write_reg STMPE811_REG_GPIO_AF 1 0x00,
        Effect.write_reg STMPE811_REG_TSC_CFG 1 0x9A,
        Effect.write_reg STMPE811_REG_FIFO_TH 1 0x40,
        Effect.write_reg STMPE811_REG_FIFO_STA 1 0x01,
        Effect.write_reg STMPE811_REG_FIFO_STA 1 0x00,
        Effect.write_reg STMPE811_REG_TSC_FRACT_XYZ 1 0x07,
        Effect.write_reg STMPE811_REG_TSC_I_DRIVE 1 0x01,
        Effect.write_reg STMPE811_REG_TSC_CTRL 1 0x00,
        Effect.write_reg STMPE811_REG_TSC_CTRL 1 0x01], ?_, ht, ?_⟩
    · rw [htr, List.append_assoc]
      rfl
    · intro reg
      simp [reads, is_read]

/-- C14: whatever the configuration, the calls of `ginput_lld_mouse_init` are `init_board()`,
the soft reset `SYS_CTRL1 = 0x02`, a sleep of 10 ms, the writes of `SYS_CTRL2`, `INT_EN` and
`ADC_CTRL1`, a sleep of 2 ms, the write of `ADC_CTRL2`, further calls none of which is a sleep,
and last the write `INT_CTRL = 0x01`; so it sleeps exactly twice, 10 ms then 2 ms. -/
theorem init_settle_delays (cfg : Config) (e : Env σ) (d : Driver σ) :
    ∃ (en : Nat) (rest : List Effect),
      (ginput_lld_mouse_init cfg e d).trace = d.trace ++
        ([Effect.init_board,
          Effect.write_reg STMPE811_REG_SYS_CTRL1 1 0x02,
          Effect.chThdSleepMilliseconds 10,
          Effect.write_reg STMPE811_REG_SYS_CTRL2 1 0x0C,
          Effect.write_reg STMPE811_REG_INT_EN 1 en,
          Effect.write_reg STMPE811_REG_ADC_CTRL1 1 0x48,
          Effect.chThdSleepMilliseconds 2,
          Effect.write_reg STMPE811_REG_ADC_CTRL2 1 0x01] ++ rest ++
         [Effect.write_reg STMPE811_REG_INT_CTRL 1 0x01]) ∧
      sleeps rest = [] ∧
      sleeps (ginput_lld_mouse_init cfg e d).trace = sleeps d.trace ++ [10, 2] ∧
      (ginput_lld_mouse_init cfg e d).trace.getLast? =
        some (Effect.write_reg STMPE811_REG_INT_CTRL 1 0x01) := by
  cases hcfg : cfg.STMP811_NO_GPIO_IRQPIN with
  | true =>
    obtain ⟨htr, -⟩ := init_poll cfg e d hcfg
    refine ⟨0x00,
       [Effect.write_reg STMPE811_REG_GPIO_AF 1 0x00,
        Effect.write_reg STMPE811_REG_TSC_CFG 1 0x9A,
        Effect.write_reg STMPE811_REG_FIFO_TH 1 0x40,
        Effect.write_reg STMPE811_REG_FIFO_STA 1 0x01,
        Effect.write_reg STMPE811_REG_FIFO_STA 1 0x00,
        Effect.write_reg STMPE811_REG_TSC_FRACT_XYZ 1 0x07,
        Effect.write_reg STMPE811_REG_TSC_I_DRIVE 1 0x01,
        Effect.write_reg STMPE811_REG_TSC_CTRL 1 0x00,
        Effect.write_reg STMPE811_REG_TSC_CTRL 1 0x01,
        Effect.write_reg STMPE811_REG_INT_STA 1 0xFF], ?_, ?_, ?_, ?_⟩
    · rw [htr]; rfl
    · rfl
    · rw [htr, sleeps_append]; rfl
    · rw [htr]; simp
  | false =>
    obtain ⟨v, htr, -⟩ := init_irq cfg e d hcfg
    refine ⟨0x01,
       [Effect.write_reg STMPE811_REG_GPIO_AF 1 0x00,
        Effect.write_reg STMPE811_REG_TSC_CFG 1 0x9A,
        Effect.write_reg STMPE811_REG_FIFO_TH 1 0x40,
        Effect.write_reg STMPE811_REG_FIFO_STA 1 0x01,
        Effect.write_reg STMPE811_REG_FIFO_STA 1 0x00,
        Effect.write_reg STMPE811_REG_TSC_FRACT_XYZ 1 0x07,
        Effect.write_reg STMPE811_REG_TSC_I_DRIVE 1 0x01,
        Effect.write_reg STMPE811_REG_TSC_CTRL 1 0x00,
        Effect.write_reg STMPE811_REG_TSC_CTRL 1 0x01,
        Effect.write_reg STMPE811_REG_INT_STA 1 0xFF,
        Effect.read_reg STMPE811_REG_TSC_CTRL 1 v], ?_, ?_, ?_, ?_⟩
    · rw [htr]; rfl
    · rfl
    · rw [htr, sleeps_append]; rfl
    · rw [htr]; simp

/-! ### What a call does after the status step -/

theorem fifo_check_tail (cfg : Config) (e : Env σ) (c : Bool) (d : Driver σ) :
    ∃ u : List Effect, (fifo_check cfg e c d).2.trace = d.trace ++ u ∧
      ∀ ev ∈ u, after_status ev = true := by
  simp only [fifo_check]
  split_ifs
  · exact ⟨[], by simp, by simp⟩
  · exact ⟨[], by simp, by simp⟩
  · exact ⟨[Effect.read_reg STMPE811_REG_FIFO_STA 1 (e.read_reg STMPE811_REG_FIFO_STA 1 d.hw).1],
      rfl, by simp [after_status]⟩
  · exact ⟨[Effect.read_reg STMPE811_REG_FIFO_STA 1 (e.read_reg STMPE811_REG_FIFO_STA 1 d.hw).1],
      rfl, by simp [after_status]⟩

theorem read_xyz_tail (e : Env σ) (d : Driver σ) :
    ∃ u : List Effect, (read_xyz e d).trace = d.trace ++ u ∧
      ∀ ev ∈ u, after_status ev = true := by
  refine ⟨[Effect.read_reg STMPE811_REG_TSC_DATA_X 2 (e.read_reg STMPE811_REG_TSC_DATA_X 2 d.hw).1,
    Effect.read_reg STMPE811_REG_TSC_DATA_Y 2
      (e.read_reg STMPE811_REG_TSC_DATA_Y 2 (e.read_reg STMPE811_REG_TSC_DATA_X 2 d.hw).2).1,
    Effect.read_reg STMPE811_REG_TSC_DATA_Z 1
      (e.read_reg STMPE811_REG_TSC_DATA_Z 1
        (e.read_reg STMPE811_REG_TSC_DATA_Y 2
          (e.read_reg STMPE811_REG_TSC_DATA_X 2 d.hw).2).2).1], ?_, ?_⟩
  · simp [read_xyz, read_reg]
  · simp [after_status]

theorem read_cycle_tail (e : Env σ) (d : Driver σ) :
    ∃ u : List Effect, (read_cycle e d).2.trace = d.trace ++ u ∧
      ∀ ev ∈ u, after_status ev = true := by
  obtain ⟨u, hu, hall⟩ := read_xyz_tail e d
  refine ⟨u ++ [Effect.read_reg STMPE811_REG_FIFO_STA 1 (read_cycle e d).1], ?_, ?_⟩
  · rw [← List.append_assoc, ← hu]
    rfl
  · intro ev hev
    rw [List.mem_append, List.mem_singleton] at hev
    rcases hev with h | h
    · exact hall ev h
    · rw [h]; rfl

theorem drain_tail (e : Env σ) (c : Bool) (fuel : Nat) :
    ∀ d d3 : Driver σ, drain e c fuel d = Except.ok d3 →
      ∃ u : List Effect, d3.trace = d.trace ++ u ∧ ∀ ev ∈ u, after_status ev = true := by
  induction fuel with
  | zero => intro d d3 h; simp [drain] at h
  | succ n ih =>
    intro d d3 h
    cases c with
    | true =>
      rw [drain_succ_flush] at h
      split_ifs at h
      · obtain ⟨u1, hu1, hall1⟩ := read_cycle_tail e d
        obtain ⟨u2, hu2, hall2⟩ := ih _ _ h
        refine ⟨u1 ++ u2, by rw [hu2, hu1, List.append_assoc], ?_⟩
        intro ev hev
        rw [List.mem_append] at hev
        exact hev.elim (hall1 ev) (hall2 ev)
      · injection h with h; rw [← h]; exact read_cycle_tail e d
    | false =>
      rw [drain_succ_once] at h
      injection h with h; rw [← h]; exact read_xyz_tail e d

/-- Whatever a call that returns does after the status step is a read of `FIFO_STA`, X, Y or Z,
or the wakeup; the latch is not changed any more. -/
theorem get_reading_tail (cfg : Config) (e : Env σ) (fuel : Nat) (d : Driver σ)
    (r : MouseReading) (d' : Driver σ)
    (h : ginput_lld_mouse_get_reading cfg e fuel d = Except.ok (r, d')) :
    d'.touched = (touched_status cfg e d).2.touched ∧
    ∃ u : List Effect, d'.trace = (touched_status cfg e d).2.trace ++ u ∧
      ∀ ev ∈ u, after_status ev = true := by
  by_cases ht : (touched_status cfg e d).2.touched = 0
  · rw [get_reading_of_untouched cfg e fuel d ht] at h
    injection h with h
    injection h with _ hd
    subst hd
    exact ⟨rfl, [], by simp, by simp⟩
  · obtain ⟨d3, d4, h3, h4, -, hd⟩ := get_reading_of_touched cfg e fuel d r d' ht h
    obtain ⟨u1, hu1, hall1⟩ := fifo_check_tail cfg e (touched_status cfg e d).1
      (touched_status cfg e d).2
    obtain ⟨u2, hu2, hall2⟩ := drain_tail e _ fuel _ _ h3
    obtain ⟨u3, hu3, hall3⟩ := trailing_check_trace e
      (fifo_check cfg e (touched_status cfg e d).1 (touched_status cfg e d).2).1
      { d4 with z := coord_t (pressure d4.z) }
    have hf := rescale_frame cfg e d3 d4 h4
    constructor
    · rw [hd, (trailing_check_frame e _ _).2.2.2]
      show d4.touched = _
      rw [hf.2.1, drain_touched e _ fuel _ _ h3]
      exact (fifo_check_frame cfg e _ _).2.2.2
    · refine ⟨u1 ++ u2 ++ u3, ?_, ?_⟩
      · rw [hd, hu3]
        show d4.trace ++ u3 = _
        rw [hf.2.2.2, hu2, hu1, List.append_assoc, List.append_assoc, List.append_assoc]
      · intro ev hev
        rw [List.mem_append, List.mem_append] at hev
        rcases hev with (h1 | h2) | h3'
        · exact hall1 ev h1
        · exact hall2 ev h2
        · rcases hall3 ev h3' with hw | ⟨v, hv⟩
          · rw [hw]; rfl
          · rw [hv]; rfl

/-- Effects allowed after the status step are no writes and no reads of `TSC_CTRL`. -/
theorem after_status_counts (u : List Effect) (hall : ∀ ev ∈ u, after_status ev = true) :
    writes u = 0 ∧ reads STMPE811_REG_TSC_CTRL u = 0 := by
  constructor
  · rw [writes, List.countP_eq_zero]
    intro ev hev hw
    have h1 := hall ev hev
    cases ev <;> simp [is_write, after_status] at hw h1
  · rw [reads, List.countP_eq_zero]
    intro ev hev hw
    have h1 := hall ev hev
    cases ev with
    | read_reg r n v =>
      simp only [is_read, decide_eq_true_eq] at hw
      subst hw
      simp [after_status] at h1
    | _ => simp [is_read] at hw

theorem writes_append (t u : List Effect) : writes (t ++ u) = writes t + writes u := by
  simp [writes, List.countP_append]

/-- C15: in interrupt-pin mode, a call of `ginput_lld_mouse_get_reading` that finds the IRQ pin
not asserted only queries the pin in its status step: the latch is unchanged, `clearfifo` is
false, and over the whole call no register is written and `TSC_CTRL` is not read.  With the pin
asserted the status step queries the pin, writes `0xFF` to `INT_STA`, reads `TSC_CTRL`, sets the
latch to the value read `& 0x80`, and sets `clearfifo`. -/
theorem irq_pin_step (cfg : Config) (e : Env σ) (fuel : Nat) (d : Driver σ)
    (hcfg : cfg.STMP811_NO_GPIO_IRQPIN = false) :
    ((e.getpin_irq d.hw).1 = false →
      (touched_status cfg e d).1 = false ∧
      (touched_status cfg e d).2.touched = d.touched ∧
      (touched_status cfg e d).2.trace = d.trace ++ [Effect.getpin_irq false] ∧
      (∀ (r : MouseReading) (d' : Driver σ),
        ginput_lld_mouse_get_reading cfg e fuel d = Except.ok (r, d') →
        d'.touched = d.touched ∧ writes d'.trace = writes d.trace ∧
        reads STMPE811_REG_TSC_CTRL d'.trace = reads STMPE811_REG_TSC_CTRL d.trace)) ∧
    ((e.getpin_irq d.hw).1 = true →
      ∃ v : Nat,
        (touched_status cfg e d).2.trace = d.trace ++
          [Effect.getpin_irq true, Effect.write_reg STMPE811_REG_INT_STA 1 0xFF,
           Effect.read_reg STMPE811_REG_TSC_CTRL 1 v] ∧
        (touched_status cfg e d).2.touched = uint8_t v &&& 0x80 ∧
        (touched_status cfg e d).1 = true) := by
  constructor
  · intro hpin
    have hs : touched_status cfg e d = (false, (getpin_irq e d).2) := by
      simp [touched_status, hcfg, getpin_irq, hpin]
    have htr : (touched_status cfg e d).2.trace = d.trace ++ [Effect.getpin_irq false] := by
      rw [hs]
      simp [getpin_irq, hpin]
    have hlatch : (touched_status cfg e d).2.touched = d.touched := by rw [hs]; rfl
    refine ⟨by rw [hs], hlatch, htr, ?_⟩
    intro r d' h
    obtain ⟨ht, u, hu, hall⟩ := get_reading_tail cfg e fuel d r d' h
    have hc := after_status_counts u hall
    refine ⟨ht.trans hlatch, ?_, ?_⟩
    · rw [hu, htr, writes_append, writes_append, hc.1]
      simp [writes, is_write]
    · rw [hu, htr, reads_append, reads_append, hc.2]
      simp [reads, is_read]
  · intro hpin
    rw [touched_status_irq cfg e d hcfg hpin]
    refine ⟨(e.read_reg STMPE811_REG_TSC_CTRL 1
      (e.write_reg STMPE811_REG_INT_STA 1 0xFF (e.getpin_irq d.hw).2)).1, ?_, rfl, rfl⟩
    simp [read_reg, write_reg, getpin_irq, hpin]

/-- Witness of C15: interrupt-pin mode with the pin low and the latch set from an earlier
touch; the call reads the FIFO but writes nothing and leaves the latch alone. -/
theorem irq_pin_step_witness :
    cfg_irq.STMP811_NO_GPIO_IRQPIN = false ∧
    trace_of (ginput_lld_mouse_get_reading cfg_irq (simEnv 320 240) 1
        (driver_at 0 0 0 0x80 ⟨false, 0x01, 0, [(1, 2, 3)]⟩)) =
      Except.ok [Effect.getpin_irq false,
        Effect.read_reg STMPE811_REG_FIFO_STA 1 0,
        Effect.read_reg STMPE811_REG_TSC_DATA_X 2 1, Effect.read_reg STMPE811_REG_TSC_DATA_Y 2 2,
        Effect.read_reg STMPE811_REG_TSC_DATA_Z 1 3,
        Effect.read_reg STMPE811_REG_FIFO_STA 1 0x20] ∧
    ((touched_status cfg_irq (simEnv 320 240)
        (driver_at 0 0 0 0x80 ⟨false, 0x01, 0, [(1, 2, 3)]⟩)).1 = false ∧
     (touched_status cfg_irq (simEnv 320 240)
        (driver_at 0 0 0 0x80 ⟨false, 0x01, 0, [(1, 2, 3)]⟩)).2.touched = 0x80) :=
  ⟨rfl, rfl,
    ((irq_pin_step cfg_irq (simEnv 320 240) 1
      (driver_at 0 0 0 0x80 ⟨false, 0x01, 0, [(1, 2, 3)]⟩) rfl).1 rfl).1,
    ((irq_pin_step cfg_irq (simEnv 320 240) 1
      (driver_at 0 0 0 0x80 ⟨false, 0x01, 0, [(1, 2, 3)]⟩) rfl).1 rfl).2.1⟩

/-! ### Untouched calls -/

/-- The status step reads no register but `TSC_CTRL`. -/
theorem touched_status_reads (cfg : Config) (e : Env σ) (d : Driver σ) (reg : Reg)
    (hreg : reg ≠ STMPE811_REG_TSC_CTRL) :
    reads reg (touched_status cfg e d).2.trace = reads reg d.trace := by
  have hne : ¬ STMPE811_REG_TSC_CTRL = reg := fun h => hreg h.symm
  simp only [touched_status]
  split_ifs <;>
    simp [read_reg, write_reg, getpin_irq, reads, List.countP_append, List.countP_cons,
      is_read, hne]

/-- C16: an untouched call of `ginput_lld_mouse_get_reading` returns at once from the status
step, whether or not that step set `clearfifo` (as it does on a touched-to-untouched edge in
polling mode): the stored `x`, `y`, `z` are unchanged, neither `FIFO_STA` nor the X, Y or Z data
register is read, and `ginputMouseWakeup` is not invoked. -/
theorem untouched_call_frame (cfg : Config) (e : Env σ) (fuel : Nat) (d : Driver σ)
    (h : (touched_status cfg e d).2.touched = 0) :
    (∃ r : MouseReading,
      ginput_lld_mouse_get_reading cfg e fuel d = Except.ok (r, (touched_status cfg e d).2)) ∧
    (∀ (r : MouseReading) (d' : Driver σ),
      ginput_lld_mouse_get_reading cfg e fuel d = Except.ok (r, d') →
      (d'.x = d.x ∧ d'.y = d.y ∧ d'.z = d.z) ∧
      (reads STMPE811_REG_FIFO_STA d'.trace = reads STMPE811_REG_FIFO_STA d.trace ∧
       reads STMPE811_REG_TSC_DATA_X d'.trace = reads STMPE811_REG_TSC_DATA_X d.trace ∧
       reads STMPE811_REG_TSC_DATA_Y d'.trace = reads STMPE811_REG_TSC_DATA_Y d.trace ∧
       reads STMPE811_REG_TSC_DATA_Z d'.trace = reads STMPE811_REG_TSC_DATA_Z d.trace) ∧
      wakeups d'.trace = wakeups d.trace) := by
  have hcall := get_reading_of_untouched cfg e fuel d h
  refine ⟨⟨_, hcall⟩, ?_⟩
  intro r d' hret
  rw [hcall] at hret
  injection hret with hret
  injection hret with _ hd
  subst hd
  exact ⟨touched_status_xyz cfg e d,
    ⟨touched_status_reads cfg e d _ (by decide), touched_status_reads cfg e d _ (by decide),
     touched_status_reads cfg e d _ (by decide), touched_status_reads cfg e d _ (by decide)⟩,
    touched_status_wakeups cfg e d⟩

/-- Witness of C16: a release seen by a poll.  The latch goes from `0x80` to 0 and the status
step sets `clearfifo`, yet the call only reads `TSC_CTRL`, with two entries left in the FIFO. -/
theorem untouched_call_frame_witness :
    (touched_status cfg_poll (simEnv 320 240)
        (driver_at 7 8 9 0x80 ⟨false, 0x01, 0, [(1, 2, 3), (4, 5, 6)]⟩)).1 = true ∧
    ginput_lld_mouse_get_reading cfg_poll (simEnv 320 240) 0
        (driver_at 7 8 9 0x80 ⟨false, 0x01, 0, [(1, 2, 3), (4, 5, 6)]⟩) =
      Except.ok ({ x := 7, y := 8, z := 0, buttons := 0 },
        { x := 7, y := 8, z := 9, touched := 0,
          hw := ⟨false, 0x01, 0, [(1, 2, 3), (4, 5, 6)]⟩,
          trace := [Effect.read_reg STMPE811_REG_TSC_CTRL 1 0x01] }) ∧
    wakeups [Effect.read_reg STMPE811_REG_TSC_CTRL 1 0x01] =
      wakeups (driver_at 7 8 9 0x80
        (⟨false, 0x01, 0, [(1, 2, 3), (4, 5, 6)]⟩ : SimChip)).trace :=
  ⟨rfl, rfl,
    ((untouched_call_frame cfg_poll (simEnv 320 240) 0
      (driver_at 7 8 9 0x80 ⟨false, 0x01, 0, [(1, 2, 3), (4, 5, 6)]⟩) rfl).2
      { x := 7, y := 8, z := 0, buttons := 0 }
      { x := 7, y := 8, z := 9, touched := 0,
        hw := ⟨false, 0x01, 0, [(1, 2, 3), (4, 5, 6)]⟩,
        trace := [Effect.read_reg STMPE811_REG_TSC_CTRL 1 0x01] } rfl).2.2⟩

/-! ### The check of `FIFO_STA` before the drain loop -/

/-- A flushing drain loop that ends made `n + 1` read cycles, the first `n` without the empty
bit and the last with it. -/
theorem drain_flush_cycles (e : Env σ) :
    ∀ (fuel : Nat) (d d3 : Driver σ), drain e true fuel d = Except.ok d3 →
      ∃ n : Nat, n < fuel ∧ d3 = after_cycles e (n + 1) d ∧
        (∀ k, k < n → (read_cycle e (after_cycles e k d)).1 &&& 0x20 = 0) ∧
        (read_cycle e (after_cycles e n d)).1 &&& 0x20 ≠ 0 := by
  intro fuel
  induction fuel with
  | zero => intro d d3 h; simp [drain] at h
  | succ f ih =>
    intro d d3 h
    rw [drain_succ_flush] at h
    by_cases hbusy : (read_cycle e d).1 &&& 0x20 = 0
    · rw [if_pos hbusy] at h
      obtain ⟨n, hn, hd3, hk, hlast⟩ := ih (read_cycle e d).2 d3 h
      refine ⟨n + 1, by omega, hd3, ?_, hlast⟩
      intro k hk2
      cases k with
      | zero => exact hbusy
      | succ j => exact hk j (by omega)
    · rw [if_neg hbusy] at h
      injection h with h
      exact ⟨0, by omega, h.symm, fun k hk => absurd hk (by omega), hbusy⟩

/-- A drain loop without flush that ends made the one pass of its body. -/
theorem drain_once (e : Env σ) (fuel : Nat) (d d3 : Driver σ)
    (h : drain e false fuel d = Except.ok d3) : d3 = read_xyz e d := by
  cases fuel with
  | zero =>
    have h0 : drain e false 0 d = Except.error Fault.out_of_fuel := rfl
    rw [h0] at h
    exact absurd h (by simp)
  | succ f =>
    rw [drain_succ_once] at h
    simp only [Except.ok.injEq] at h
    exact h.symm

theorem read_xyz_reads (e : Env σ) (d : Driver σ) :
    reads STMPE811_REG_TSC_DATA_X (read_xyz e d).trace
      = reads STMPE811_REG_TSC_DATA_X d.trace + 1 ∧
    reads STMPE811_REG_TSC_DATA_Y (read_xyz e d).trace
      = reads STMPE811_REG_TSC_DATA_Y d.trace + 1 ∧
    reads STMPE811_REG_TSC_DATA_Z (read_xyz e d).trace
      = reads STMPE811_REG_TSC_DATA_Z d.trace + 1 ∧
    reads STMPE811_REG_FIFO_STA (read_xyz e d).trace
      = reads STMPE811_REG_FIFO_STA d.trace := by
  simp [read_xyz, read_reg, reads, List.countP_append, List.countP_cons, is_read]

theorem read_cycle_reads_status (e : Env σ) (d : Driver σ) :
    reads STMPE811_REG_FIFO_STA (read_cycle e d).2.trace
      = reads STMPE811_REG_FIFO_STA d.trace + 1 := by
  simp [read_cycle, read_xyz, read_reg, reads, List.countP_append, List.countP_cons, is_read]

theorem after_cycles_reads_status (e : Env σ) :
    ∀ (k : Nat) (d : Driver σ),
      reads STMPE811_REG_FIFO_STA (after_cycles e k d).trace
        = reads STMPE811_REG_FIFO_STA d.trace + k := by
  intro k
  induction k with
  | zero => intro d; rfl
  | succ k ih =>
    intro d
    have h1 := ih (read_cycle e d).2
    have h2 := read_cycle_reads_status e d
    simp only [after_cycles]
    omega

/-- The trailing check leaves the last read of every register but `FIFO_STA` as it is, and
reads none of them. -/
theorem trailing_check_other_regs (e : Env σ) (c : Bool) (d : Driver σ) (reg : Reg)
    (hreg : reg ≠ STMPE811_REG_FIFO_STA) :
    last_read reg (trailing_check e c d).trace = last_read reg d.trace ∧
    reads reg (trailing_check e c d).trace = reads reg d.trace := by
  obtain ⟨u, hu, hev⟩ := trailing_check_trace e c d
  constructor
  · rw [hu, last_read_append]
    apply foldl_note_read_skip
    intro ev hmem acc
    rcases hev ev hmem with h1 | ⟨v, h1⟩
    · rw [h1]; rfl
    · rw [h1]
      simp only [note_read]
      rw [if_neg (fun hne => hreg hne.symm)]
  · rw [hu, reads_append]
    have hz : reads reg u = 0 := by
      rw [reads, List.countP_eq_zero]
      intro ev hmem hr
      rcases hev ev hmem with h1 | ⟨v, h1⟩
      · rw [h1] at hr; simp [is_read] at hr
      · rw [h1] at hr
        simp only [is_read, decide_eq_true_eq] at hr
        exact hreg hr.symm
    omega

/-- The rescale, when compiled in, gives `x` and `y` by lines 164 and 165. -/
theorem rescale_of_no_calibration (cfg : Config) (e : Env σ) (d d4 : Driver σ)
    (hcal : cfg.GINPUT_MOUSE_NEED_CALIBRATION = false)
    (h : rescale cfg e d = Except.ok d4) :
    rescale_x (coord_t (e.gdispGetWidth d.hw)) d.x = Except.ok d4.x ∧
    rescale_y (coord_t (e.gdispGetHeight d.hw)) d.y = Except.ok d4.y := by
  simp only [rescale, hcal, Bool.false_eq_true, if_false] at h
  cases hx : rescale_x (coord_t (e.gdispGetWidth d.hw)) d.x with
  | error f => rw [hx] at h; simp at h
  | ok x1 =>
    cases hy : rescale_y (coord_t (e.gdispGetHeight d.hw)) d.y with
    | error f => rw [hx, hy] at h; simp at h
    | ok y1 =>
      rw [hx, hy] at h
      simp only [Except.ok.injEq] at h
      rw [← h]
      exact ⟨rfl, rfl⟩

/-- C18: on a touched call of `ginput_lld_mouse_get_reading` that returns, the sample and the
stored reading come from the last X, Y, Z values read (`vx`, `vy`, `vz`): `x` and `y` are their
casts, rescaled by lines 164-165 unless calibration is enabled, `z` is the normalised pressure
of `vz`, and the stored reading is the sample.  Without a flush the drain loop made exactly one
pass (one read of each of X, Y, Z).  With a flush it made `n + 1` read cycles, `FIFO_STA`
showing the empty bit for the first time after the last of them, and nothing follows the loop
in the trace: the triple is the one of that last cycle. -/
theorem sample_from_last_triple (cfg : Config) (e : Env σ) (fuel : Nat) (d : Driver σ)
    (r : MouseReading) (d' : Driver σ)
    (ht : (touched_status cfg e d).2.touched ≠ 0)
    (h : ginput_lld_mouse_get_reading cfg e fuel d = Except.ok (r, d')) :
    ∃ (d3 : Driver σ) (vx vy vz : Nat),
      drain e (loop_entry cfg e d).1 fuel (loop_entry cfg e d).2 = Except.ok d3 ∧
      (last_read STMPE811_REG_TSC_DATA_X d'.trace = some vx ∧
       last_read STMPE811_REG_TSC_DATA_Y d'.trace = some vy ∧
       last_read STMPE811_REG_TSC_DATA_Z d'.trace = some vz) ∧
      (cfg.GINPUT_MOUSE_NEED_CALIBRATION = true → r.x = coord_t vx ∧ r.y = coord_t vy) ∧
      (cfg.GINPUT_MOUSE_NEED_CALIBRATION = false →
        rescale_x (coord_t (e.gdispGetWidth d3.hw)) (coord_t vx) = Except.ok r.x ∧
        rescale_y (coord_t (e.gdispGetHeight d3.hw)) (coord_t vy) = Except.ok r.y) ∧
      (r.z = coord_t (pressure (coord_t vz)) ∧ r.buttons = GINPUT_TOUCH_PRESSED) ∧
      (d'.x = r.x ∧ d'.y = r.y ∧ d'.z = r.z) ∧
      ((loop_entry cfg e d).1 = false →
        d3 = read_xyz e (loop_entry cfg e d).2 ∧
        reads STMPE811_REG_TSC_DATA_X d'.trace = reads STMPE811_REG_TSC_DATA_X d.trace + 1 ∧
        reads STMPE811_REG_TSC_DATA_Y d'.trace = reads STMPE811_REG_TSC_DATA_Y d.trace + 1 ∧
        reads STMPE811_REG_TSC_DATA_Z d'.trace = reads STMPE811_REG_TSC_DATA_Z d.trace + 1) ∧
      ((loop_entry cfg e d).1 = true →
        ∃ n : Nat, n < fuel ∧ d3 = after_cycles e (n + 1) (loop_entry cfg e d).2 ∧
          (∀ k, k < n →
            (read_cycle e (after_cycles e k (loop_entry cfg e d).2)).1 &&& 0x20 = 0) ∧
          (read_cycle e (after_cycles e n (loop_entry cfg e d).2)).1 &&& 0x20 ≠ 0 ∧
          d'.trace = d3.trace ∧
          reads STMPE811_REG_TSC_DATA_X d'.trace
            = reads STMPE811_REG_TSC_DATA_X d.trace + (n + 1) ∧
          reads STMPE811_REG_TSC_DATA_Y d'.trace
            = reads STMPE811_REG_TSC_DATA_Y d.trace + (n + 1) ∧
          reads STMPE811_REG_TSC_DATA_Z d'.trace
            = reads STMPE811_REG_TSC_DATA_Z d.trace + (n + 1)) := by
  have hle : loop_entry cfg e d =
      fifo_check cfg e (touched_status cfg e d).1 (touched_status cfg e d).2 := rfl
  obtain ⟨d3, d4, h3, h4, hr, hd⟩ := get_reading_of_touched cfg e fuel d r d' ht h
  rw [← hle] at h3 hd
  obtain ⟨vx, vy, vz, hx, hy, hz, hdx, hdy, hdz⟩ := drain_holds_last_raw e _ fuel _ _ h3
  have hf := rescale_frame cfg e d3 d4 h4
  have htc := trailing_check_frame e (loop_entry cfg e d).1
    { d4 with z := coord_t (pressure d4.z) }
  have hlast : ∀ reg : Reg, reg ≠ STMPE811_REG_FIFO_STA →
      last_read reg d'.trace = last_read reg d3.trace ∧
      reads reg d'.trace = reads reg d3.trace := by
    intro reg hreg
    have hk := trailing_check_other_regs e (loop_entry cfg e d).1
      { d4 with z := coord_t (pressure d4.z) } reg hreg
    rw [← hd] at hk
    have htr : ({ d4 with z := coord_t (pressure d4.z) } : Driver σ).trace = d3.trace := hf.2.2.2
    rw [htr] at hk
    exact hk
  have hentry := loop_entry_reads cfg e d
  refine ⟨d3, vx, vy, vz, h3, ⟨?_, ?_, ?_⟩, ?_, ?_, ?_, ?_, ?_, ?_⟩
  · rw [(hlast _ (by decide)).1]; exact hx
  · rw [(hlast _ (by decide)).1]; exact hy
  · rw [(hlast _ (by decide)).1]; exact hz
  · intro hcal
    rw [rescale_of_calibration cfg e d3 hcal] at h4
    simp only [Except.ok.injEq] at h4
    rw [hr, ← h4]
    exact ⟨hdx, hdy⟩
  · intro hcal
    have hres := rescale_of_no_calibration cfg e d3 d4 hcal h4
    rw [hr, ← hdx, ← hdy]
    exact hres
  · rw [hr]
    refine ⟨?_, rfl⟩
    show coord_t (pressure d4.z) = _
    rw [hf.1, hdz]
  · rw [hr, hd]
    exact ⟨htc.1, htc.2.1, htc.2.2.1⟩
  · intro hc
    rw [hc] at h3
    have hd3 := drain_once e fuel _ d3 h3
    have hxyz := read_xyz_reads e (loop_entry cfg e d).2
    rw [← hd3] at hxyz
    refine ⟨hd3, ?_, ?_, ?_⟩
    · rw [(hlast _ (by decide)).2, hxyz.1, hentry.1]
    · rw [(hlast _ (by decide)).2, hxyz.2.1, hentry.2.1]
    · rw [(hlast _ (by decide)).2, hxyz.2.2.1, hentry.2.2]
  · intro hc
    rw [hc] at h3
    obtain ⟨n, hn, hd3, hbusy, hempty⟩ := drain_flush_cycles e fuel _ d3 h3
    have hcyc := after_cycles_reads e (n + 1) (loop_entry cfg e d).2
    rw [← hd3] at hcyc
    have htr : d'.trace = d3.trace := by
      rw [hd, hc]
      simp only [trailing_check, if_true]
      exact hf.2.2.2
    refine ⟨n, hn, hd3, hbusy, hempty, htr, ?_, ?_, ?_⟩
    · rw [htr, hcyc.1, hentry.1]
    · rw [htr, hcyc.2.1, hentry.2.1]
    · rw [htr, hcyc.2.2, hentry.2.2]

/-- Witness of C18: the IRQ pin asserted over a FIFO of two entries; the sample comes from the
second, newest one, `(2048, 1024, 128)`. -/
theorem sample_from_last_triple_witness :
    ginput_lld_mouse_get_reading cfg_irq (simEnv 320 240) 2
        (driver_at 0 0 0 0 ⟨true, 0x81, 0, [(1, 2, 3), (2048, 1024, 128)]⟩) =
      Except.ok ({ x := 150, y := 60, z := 51, buttons := 1 },
        { x := 150, y := 60, z := 51, touched := 0x80, hw := ⟨false, 0x81, 0, []⟩,
          trace := [Effect.getpin_irq true, Effect.write_reg STMPE811_REG_INT_STA 1 0xFF,
            Effect.read_reg STMPE811_REG_TSC_CTRL 1 0x81,
            Effect.read_reg STMPE811_REG_TSC_DATA_X 2 1,
            Effect.read_reg STMPE811_REG_TSC_DATA_Y 2 2,
            Effect.read_reg STMPE811_REG_TSC_DATA_Z 1 3,
            Effect.read_reg STMPE811_REG_FIFO_STA 1 0,
            Effect.read_reg STMPE811_REG_TSC_DATA_X 2 2048,
            Effect.read_reg STMPE811_REG_TSC_DATA_Y 2 1024,
            Effect.read_reg STMPE811_REG_TSC_DATA_Z 1 128,
            Effect.read_reg STMPE811_REG_FIFO_STA 1 0x20] }) ∧
    (∃ vz : Nat,
      last_read STMPE811_REG_TSC_DATA_Z
        [Effect.getpin_irq true, Effect.write_reg STMPE811_REG_INT_STA 1 0xFF,
          Effect.read_reg STMPE811_REG_TSC_CTRL 1 0x81,
          Effect.read_reg STMPE811_REG_TSC_DATA_X 2 1,
          Effect.read_reg STMPE811_REG_TSC_DATA_Y 2 2,
          Effect.read_reg STMPE811_REG_TSC_DATA_Z 1 3,
          Effect.read_reg STMPE811_REG_FIFO_STA 1 0,
          Effect.read_reg STMPE811_REG_TSC_DATA_X 2 2048,
          Effect.read_reg STMPE811_REG_TSC_DATA_Y 2 1024,
          Effect.read_reg STMPE811_REG_TSC_DATA_Z 1 128,
          Effect.read_reg STMPE811_REG_FIFO_STA 1 0x20] = some vz ∧
      (51 : Int) = coord_t (pressure (coord_t vz))) :=
  ⟨rfl,
    match sample_from_last_triple cfg_irq (simEnv 320 240) 2
      (driver_at 0 0 0 0 ⟨true, 0x81, 0, [(1, 2, 3), (2048, 1024, 128)]⟩)
      { x := 150, y := 60, z := 51, buttons := 1 }
      { x := 150, y := 60, z := 51, touched := 0x80, hw := ⟨false, 0x81, 0, []⟩,
        trace := [Effect.getpin_irq true, Effect.write_reg STMPE811_REG_INT_STA 1 0xFF,
          Effect.read_reg STMPE811_REG_TSC_CTRL 1 0x81,
          Effect.read_reg STMPE811_REG_TSC_DATA_X 2 1,
          Effect.read_reg STMPE811_REG_TSC_DATA_Y 2 2,
          Effect.read_reg STMPE811_REG_TSC_DATA_Z 1 3,
          Effect.read_reg STMPE811_REG_FIFO_STA 1 0,
          Effect.read_reg STMPE811_REG_TSC_DATA_X 2 2048,
          Effect.read_reg STMPE811_REG_TSC_DATA_Y 2 1024,
          Effect.read_reg STMPE811_REG_TSC_DATA_Z 1 128,
          Effect.read_reg STMPE811_REG_FIFO_STA 1 0x20] }
      (by decide) rfl with
    | ⟨_, _, _, vz, _, hl, _, _, hz, _⟩ => ⟨vz, hl.2.2, hz.1⟩⟩

/-! ### The slow-processor configuration -/

/-- C19: with `STMP811_SLOW_CPU` set, on every touched call of `ginput_lld_mouse_get_reading`
`clearfifo` is true at the drain loop whatever the status step decided, and nothing is read
between the status step and the loop.  A call that returns therefore made `n + 1` flushing read
cycles and nothing after them: `ginputMouseWakeup` is not invoked, and `FIFO_STA` is read once
per read cycle, in the loop condition, and nowhere else. -/
theorem slow_cpu_always_flushes (cfg : Config) (e : Env σ) (fuel : Nat) (d : Driver σ)
    (r : MouseReading) (d' : Driver σ)
    (hslow : cfg.STMP811_SLOW_CPU = true)
    (ht : (touched_status cfg e d).2.touched ≠ 0)
    (h : ginput_lld_mouse_get_reading cfg e fuel d = Except.ok (r, d')) :
    loop_entry cfg e d = (true, (touched_status cfg e d).2) ∧
    wakeups d'.trace = wakeups d.trace ∧
    (∃ n : Nat, n < fuel ∧
      d'.trace = (after_cycles e (n + 1) (touched_status cfg e d).2).trace ∧
      (∀ k, k < n →
        (read_cycle e (after_cycles e k (touched_status cfg e d).2)).1 &&& 0x20 = 0) ∧
      (read_cycle e (after_cycles e n (touched_status cfg e d).2)).1 &&& 0x20 ≠ 0 ∧
      reads STMPE811_REG_FIFO_STA d'.trace = reads STMPE811_REG_FIFO_STA d.trace + (n + 1) ∧
      reads STMPE811_REG_TSC_DATA_X d'.trace
        = reads STMPE811_REG_TSC_DATA_X d.trace + (n + 1)) := by
  have hentry : loop_entry cfg e d = (true, (touched_status cfg e d).2) := by
    simp [loop_entry, fifo_check, hslow]
  have hle : loop_entry cfg e d =
      fifo_check cfg e (touched_status cfg e d).1 (touched_status cfg e d).2 := rfl
  obtain ⟨d3, d4, h3, h4, -, hd⟩ := get_reading_of_touched cfg e fuel d r d' ht h
  rw [← hle, hentry] at h3 hd
  have hf := rescale_frame cfg e d3 d4 h4
  have htr : d'.trace = d3.trace := by
    rw [hd]
    simp only [trailing_check, if_true]
    exact hf.2.2.2
  obtain ⟨n, hn, hd3, hbusy, hempty⟩ := drain_flush_cycles e fuel _ d3 h3
  refine ⟨hentry, ?_, n, hn, by rw [htr, hd3], hbusy, hempty, ?_, ?_⟩
  · rw [htr, drain_wakeups e true fuel _ d3 h3, touched_status_wakeups]
  · rw [htr, hd3, after_cycles_reads_status,
      touched_status_reads cfg e d _ (by decide)]
  · rw [htr, hd3, (after_cycles_reads e (n + 1) _).1,
      touched_status_reads cfg e d _ (by decide)]

/-- Witness of C19: a slow-CPU polling configuration, a steady touched poll (no edge) over a
FIFO of two entries; the loop flushes both and the call ends on the loop's last status read. -/
theorem slow_cpu_always_flushes_witness :
    (touched_status ⟨true, true, false⟩ (simEnv 320 240)
        (driver_at 0 0 0 0x80 ⟨false, 0x81, 0, [(1, 2, 3), (4, 5, 6)]⟩)).1 = false ∧
    ginput_lld_mouse_get_reading ⟨true, true, false⟩ (simEnv 320 240) 2
        (driver_at 0 0 0 0x80 ⟨false, 0x81, 0, [(1, 2, 3), (4, 5, 6)]⟩) =
      Except.ok ({ x := 320, y := 0, z := 3, buttons := 1 },
        { x := 320, y := 0, z := 3, touched := 0x80, hw := ⟨false, 0x81, 0, []⟩,
          trace := [Effect.read_reg STMPE811_REG_TSC_CTRL 1 0x81,
            Effect.read_reg STMPE811_REG_TSC_DATA_X 2 1,
            Effect.read_reg STMPE811_REG_TSC_DATA_Y 2 2,
            Effect.read_reg STMPE811_REG_TSC_DATA_Z 1 3,
            Effect.read_reg STMPE811_REG_FIFO_STA 1 0,
            Effect.read_reg STMPE811_REG_TSC_DATA_X 2 4,
            Effect.read_reg STMPE811_REG_TSC_DATA_Y 2 5,
            Effect.read_reg STMPE811_REG_TSC_DATA_Z 1 6,
            Effect.read_reg STMPE811_REG_FIFO_STA 1 0x20] }) ∧
    loop_entry ⟨true, true, false⟩ (simEnv 320 240)
        (driver_at 0 0 0 0x80 ⟨false, 0x81, 0, [(1, 2, 3), (4, 5, 6)]⟩) =
      (true, (touched_status ⟨true, true, false⟩ (simEnv 320 240)
        (driver_at 0 0 0 0x80 ⟨false, 0x81, 0, [(1, 2, 3), (4, 5, 6)]⟩)).2) :=
  ⟨rfl, rfl,
    (slow_cpu_always_flushes ⟨true, true, false⟩ (simEnv 320 240) 2
      (driver_at 0 0 0 0x80 ⟨false, 0x81, 0, [(1, 2, 3), (4, 5, 6)]⟩)
      { x := 320, y := 0, z := 3, buttons := 1 }
      { x := 320, y := 0, z := 3, touched := 0x80, hw := ⟨false, 0x81, 0, []⟩,
        trace := [Effect.read_reg STMPE811_REG_TSC_CTRL 1 0x81,
          Effect.read_reg STMPE811_REG_TSC_DATA_X 2 1,
          Effect.read_reg STMPE811_REG_TSC_DATA_Y 2 2,
          Effect.read_reg STMPE811_REG_TSC_DATA_Z 1 3,
          Effect.read_reg STMPE811_REG_FIFO_STA 1 0,
          Effect.read_reg STMPE811_REG_TSC_DATA_X 2 4,
          Effect.read_reg STMPE811_REG_TSC_DATA_Y 2 5,
          Effect.read_reg STMPE811_REG_TSC_DATA_Z 1 6,
          Effect.read_reg STMPE811_REG_FIFO_STA 1 0x20] }
      rfl (by decide) rfl).1⟩

end Claims

end STMPE811
